import Mathlib

/-!
Shallow embedding of the minkraft voxel-terrain pipeline (chunk generation,
LOD-driven mesh command queues, greedy-quad meshing, fade lifecycle), with
theorems checking the natural-language specification against the code.

Sources embedded: src/voxel_map.rs, src/mesh_fade.rs, src/mesh_generator.rs,
src/chunk_generator.rs, src/level_of_detail.rs.

Machine numbers: Rust `f32` fields and arithmetic are modelled over `ℚ`
(exact arithmetic with the same comparison/clamp structure); `i32`
coordinates are modelled as `Int` (no overflow occurs in the ranges the
configurations use); `u8`/`u32`/`usize` are modelled as `Nat` with explicit
`% 2 ^ w` where wrap-around matters.
-/

namespace Minkraft

/-- Model of `Point3i` of building-blocks: a triple of `i32` coordinates. -/
structure Point3 where
  x : Int
  y : Int
  z : Int
deriving DecidableEq

/-- Model of `Extent3i` of building-blocks: minimum corner and shape. -/
structure Extent3 where
  minimum : Point3
  shape : Point3
deriving DecidableEq

/-! ## Voxel (src/voxel_map.rs lines 112-143) -/

/-- Model of `pub struct Voxel(pub u8)`: material id stored in one byte. -/
structure Voxel where
  val : Nat
deriving DecidableEq

namespace Voxel

def EMPTY : Voxel := ⟨0⟩
def WATER : Voxel := ⟨1⟩
def SAND : Voxel := ⟨2⟩
def GRASS : Voxel := ⟨3⟩
def DIRT : Voxel := ⟨4⟩
def STONE : Voxel := ⟨5⟩
def SNOW : Voxel := ⟨6⟩

/-- Model of `impl IsEmpty for Voxel`: `*self == Voxel::EMPTY`. -/
def is_empty (v : Voxel) : Bool := v = EMPTY

/-- Model of `impl IsOpaque for Voxel`: the source returns `true` unconditionally. -/
def is_opaque (_ : Voxel) : Bool := true

/-- Model of `impl MergeVoxel for Voxel`: `voxel_merge_value` returns the raw byte. -/
def voxel_merge_value (v : Voxel) : Nat := v.val

end Voxel

/-! ## Noise configuration and material bands (src/voxel_map.rs lines 183-202, 378-438) -/

/-- Model of `NoiseConfig` (src/voxel_map.rs lines 183-190); `f32` fields as `ℚ`. -/
structure NoiseConfig where
  frequency : ℚ
  seed : Int
  octaves : Nat
  y_offset : ℚ
  y_scale : ℚ

/-- Model of `NoiseConfig::default()` (src/voxel_map.rs lines 192-202). -/
def NoiseConfig.default : NoiseConfig :=
  { frequency := 1 / 256, seed := 1234, octaves := 5, y_offset := 128, y_scale := 1024 }

/-- Model of `scale_noise` (src/voxel_map.rs lines 382-384): `(v - 4.5) * y_scale + y_offset`. -/
def scale_noise (v : ℚ) (config : NoiseConfig) : ℚ :=
  (v - 4.5) * config.y_scale + config.y_offset

/-- Model of `height_to_material` (src/voxel_map.rs lines 429-438): ordered height-threshold
bands mapping a world-space `y` to a material. -/
def height_to_material (y : Int) (config : NoiseConfig) : Voxel :=
  if (y : ℚ) < scale_noise 4.52 config then Voxel.WATER
  else if (y : ℚ) < scale_noise 4.54 config then Voxel.SAND
  else if (y : ℚ) < scale_noise 4.55 config then Voxel.DIRT
  else if (y : ℚ) < scale_noise 4.7 config then Voxel.GRASS
  else if (y : ℚ) < scale_noise 4.8 config then Voxel.STONE
  else Voxel.SNOW

/-! ## Fade uniforms (src/mesh_fade.rs) -/

/-- Model of `FadeUniform` (src/mesh_fade.rs lines 7-17); `f32` fields as `ℚ`. -/
structure FadeUniform where
  duration : ℚ
  remaining : ℚ
  delay : ℚ
  fade_in : Bool
deriving DecidableEq

/-- Model of `FADE_DURATION` (src/mesh_fade.rs line 25). -/
def FADE_DURATION : ℚ := 1 / 4

/-- Model of `FADE_IN` constant (src/mesh_fade.rs lines 26-31). -/
def FADE_IN : FadeUniform :=
  { duration := FADE_DURATION, remaining := FADE_DURATION, delay := 0, fade_in := true }

/-- Model of `FADE_OUT` constant (src/mesh_fade.rs lines 32-37). -/
def FADE_OUT : FadeUniform :=
  { duration := FADE_DURATION, remaining := FADE_DURATION, delay := 0, fade_in := false }

/-- Rust `f32::clamp(lo, hi)`: `if x < lo then lo else if x > hi then hi else x`. -/
def rustClamp (x lo hi : ℚ) : ℚ :=
  if x < lo then lo else if x > hi then hi else x

/-- One iteration of the loop body of `mesh_fade_update_system`
(src/mesh_fade.rs lines 39-53) applied to a single `FadeUniform` with frame
delta `dt = time.delta_seconds()`. -/
def mesh_fade_update (dt : ℚ) (fade : FadeUniform) : FadeUniform :=
  if fade.delay > 0 then
    if fade.delay > dt then
      { fade with delay := fade.delay - dt }
    else
      let dt2 := dt - fade.delay
      { fade with delay := 0,
                  remaining := rustClamp (fade.remaining - dt2) 0 fade.duration }
  else
    { fade with remaining := rustClamp (fade.remaining - dt) 0 fade.duration }

/-- Model of `mesh_fade_update_system` over the whole query: updates every fade. -/
def mesh_fade_update_system (dt : ℚ) (fades : List FadeUniform) : List FadeUniform :=
  fades.map (mesh_fade_update dt)

/-! ## Mesh commands (src/mesh_generator.rs lines 52-125) -/

/-- Model of `LodChunkKey3` of building-blocks: (lod index, chunk key at that lod). -/
structure LodChunkKey3 where
  lod : Nat
  chunk_key : Point3
deriving DecidableEq

/-- Model of `SplitChunk` of building-blocks: one chunk split into finer chunks
(at most 8 octants; the library stores them in an 8-capacity array). -/
structure SplitChunk where
  old_chunk : LodChunkKey3
  new_chunks : List LodChunkKey3
deriving DecidableEq

/-- Model of `MergeChunks` of building-blocks: several chunks merged into a coarser one. -/
structure MergeChunks where
  old_chunks : List LodChunkKey3
  new_chunk : LodChunkKey3
deriving DecidableEq

/-- Model of `LodChunkUpdate3` of building-blocks. -/
inductive LodChunkUpdate3 where
  | split (s : SplitChunk)
  | merge (m : MergeChunks)
deriving DecidableEq

/-- Model of `MeshCommand` (src/mesh_generator.rs lines 80-84). -/
inductive MeshCommand where
  | create (k : LodChunkKey3)
  | update (u : LodChunkUpdate3)
deriving DecidableEq

/-- Model of `MeshCommandQueue` (src/mesh_generator.rs lines 56-59): a `VecDeque`,
modelled as a list whose head is the deque's front. -/
abbrev MeshCommandQueue := List MeshCommand

/-- Model of `MeshCommandQueue::enqueue` (src/mesh_generator.rs lines 62-64):
`self.commands.push_front(command)`. -/
def MeshCommandQueue.enqueue (q : MeshCommandQueue) (command : MeshCommand) :
    MeshCommandQueue :=
  command :: q

/-! Association-list model of `SmallKeyHashMap` (keys are unique). -/

def mapLookup {K V : Type} [DecidableEq K] : List (K × V) → K → Option V
  | [], _ => none
  | (k, v) :: rest, key => if k = key then some v else mapLookup rest key

def mapRemoveEntry {K V : Type} [DecidableEq K] : List (K × V) → K → List (K × V)
  | [], _ => []
  | (k, v) :: rest, key =>
    if k = key then mapRemoveEntry rest key else (k, v) :: mapRemoveEntry rest key

/-- HashMap `insert`: replaces any existing binding, returns the old value. -/
def mapInsert {K V : Type} [DecidableEq K] (m : List (K × V)) (key : K) (v : V) :
    List (K × V) × Option V :=
  (mapRemoveEntry m key ++ [(key, v)], mapLookup m key)

/-- Model of `ChunkMeshes` (src/mesh_generator.rs lines 86-91): entities maps a chunk
key to its (render entity, mesh handle); entities and mesh handles are ids. -/
structure ChunkMeshes where
  entities : List (LodChunkKey3 × (Nat × Nat))
  remove_queue : List (LodChunkKey3 × (Nat × Nat))
deriving DecidableEq

/-- Model of `max_mesh_creations_per_frame` (src/mesh_generator.rs lines 52-54):
`40 * pool.thread_num()`. -/
def max_mesh_creations_per_frame (thread_num : Nat) : Nat :=
  40 * thread_num

/-- Mutable state threaded through the `apply_mesh_commands` loop
(src/mesh_generator.rs lines 226-300): the counters, the `ChunkMeshes`
maps, the spawned mesh tasks (their keys, in spawn order), the entities
given `FADE_OUT`, and the commands examined in examination order. -/
structure ApplyState where
  chunkMeshes : ChunkMeshes
  spawned : List LodChunkKey3
  fadeOuts : List Nat
  num_creates : Nat
  num_updates : Nat
  num_meshes_created : Nat
  examined : List MeshCommand
deriving DecidableEq

/-- Move an entry of `entities` to `remove_queue` and emit `FADE_OUT` for its
entity, as the split/merge arms do (src/mesh_generator.rs lines 248-255 and
273-278); no-op when the key has no entity. -/
def fadeOutEntry (st : ApplyState) (lod_key : LodChunkKey3) : ApplyState :=
  match mapLookup st.chunkMeshes.entities lod_key with
  | some em =>
    { st with
      chunkMeshes :=
        { entities := mapRemoveEntry st.chunkMeshes.entities lod_key,
          remove_queue := (mapInsert st.chunkMeshes.remove_queue lod_key em).1 },
      fadeOuts := st.fadeOuts ++ [em.1] }
  | none => st

/-- Spawn a mesh-generation task for `lod_key` if no entity exists for it,
incrementing `num_meshes_created` (the split/merge/create spawn pattern). -/
def spawnIfAbsent (st : ApplyState) (lod_key : LodChunkKey3) : ApplyState :=
  if (mapLookup st.chunkMeshes.entities lod_key).isNone then
    { st with
      num_meshes_created := st.num_meshes_created + 1,
      spawned := st.spawned ++ [lod_key] }
  else st

/-- One iteration of the `for command in mesh_commands.commands.iter().rev()`
loop body of `apply_mesh_commands` (src/mesh_generator.rs lines 230-296). -/
def processMeshCommand (st : ApplyState) (command : MeshCommand) : ApplyState :=
  let st := { st with examined := st.examined ++ [command] }
  match command with
  | .create lod_key =>
    if (mapLookup st.chunkMeshes.entities lod_key).isNone then
      let st := { st with num_creates := st.num_creates + 1 }
      { st with
        num_meshes_created := st.num_meshes_created + 1,
        spawned := st.spawned ++ [lod_key] }
    else st
  | .update u =>
    let st := { st with num_updates := st.num_updates + 1 }
    match u with
    | .split s =>
      let st := fadeOutEntry st s.old_chunk
      s.new_chunks.foldl spawnIfAbsent st
    | .merge m =>
      let st := m.old_chunks.foldl fadeOutEntry st
      spawnIfAbsent st m.new_chunk

/-- The command loop of `apply_mesh_commands` (src/mesh_generator.rs lines
230-300): commands arrive already reversed (`iter().rev()`); after each
command, `if !first_run && num_meshes_created >= num_chunks_to_mesh break`. -/
def applyMeshLoop (first_run : Bool) (num_chunks_to_mesh : Nat) :
    List MeshCommand → ApplyState → ApplyState
  | [], st => st
  | command :: rest, st =>
    let st := processMeshCommand st command
    if first_run = false ∧ num_chunks_to_mesh ≤ st.num_meshes_created then st
    else applyMeshLoop first_run num_chunks_to_mesh rest st

def initialApplyState (cm : ChunkMeshes) : ApplyState :=
  { chunkMeshes := cm, spawned := [], fadeOuts := [], num_creates := 0,
    num_updates := 0, num_meshes_created := 0, examined := [] }

structure ApplyResult where
  state : ApplyState
  queue : MeshCommandQueue
deriving DecidableEq

/-- Model of `apply_mesh_commands` (src/mesh_generator.rs lines 215-305): budget is
`mesh_commands.len().min(max_mesh_creations_per_frame(pool))`; the loop walks
the deque back-to-front; afterwards the deque is truncated to
`len - (num_creates + num_updates)` entries, keeping the front. -/
def apply_mesh_commands (thread_num : Nat) (first_run : Bool)
    (mesh_commands : MeshCommandQueue) (chunk_meshes : ChunkMeshes) : ApplyResult :=
  let num_chunks_to_mesh :=
    min mesh_commands.length (max_mesh_creations_per_frame thread_num)
  let st := applyMeshLoop first_run num_chunks_to_mesh
    mesh_commands.reverse (initialApplyState chunk_meshes)
  let new_length := mesh_commands.length - (st.num_creates + st.num_updates)
  { state := st, queue := mesh_commands.take new_length }

/-! ## Greedy-quad meshing (src/mesh_generator.rs lines 127-173, 323-389) -/

/-- Model of `UnorientedQuad` of building-blocks; only its minimum corner is read by
this module (`neighborhood_buffer.get(quad.minimum)`). -/
structure Quad where
  minimum : Point3
deriving DecidableEq

/-- The geometry callbacks of the external building-blocks mesh library
(`OrientedCubeFace::quad_mesh_positions/quad_mesh_normals/tex_coords`),
abstracted: this module only forwards their outputs into the buffers. -/
structure QuadGeometry where
  quad_mesh_positions : Quad → ℚ → List (ℚ × ℚ × ℚ)
  quad_mesh_normals : Quad → List (ℚ × ℚ × ℚ)
  tex_coords : Quad → List (ℚ × ℚ)

/-- Model of `OrientedCubeFace::quad_mesh_indices(start)` of building-blocks: the six
triangle-list indices of one quad, based at `start` (the concrete winding is
the library's per-face order; this module relies only on there being six). -/
def quad_mesh_indices (start : Nat) : List Nat :=
  [start, start + 1, start + 2, start + 1, start + 3, start + 2]

def Point3.mul (a b : Point3) : Point3 :=
  ⟨a.x * b.x, a.y * b.y, a.z * b.z⟩

/-- building-blocks `Extent3i * Point3i`: componentwise scaling. -/
def Extent3.scale (e : Extent3) (p : Point3) : Extent3 :=
  ⟨e.minimum.mul p, e.shape.mul p⟩

/-- Model of `MeshBuf` (src/mesh_generator.rs lines 128-136). -/
structure MeshBuf where
  positions : List (ℚ × ℚ × ℚ)
  normals : List (ℚ × ℚ × ℚ)
  tex_coords : List (ℚ × ℚ)
  layer : List Nat
  indices : List Nat
  extent : Extent3

/-- Model of `MeshBuf::default()` (src/mesh_generator.rs lines 138-149). -/
def MeshBuf.default : MeshBuf :=
  { positions := [], normals := [], tex_coords := [], layer := [], indices := [],
    extent := ⟨⟨0, 0, 0⟩, ⟨0, 0, 0⟩⟩ }

/-- Model of `MeshBuf::add_quad` (src/mesh_generator.rs lines 151-172): appends four
positions/normals/tex-coords, four copies of the texture layer, and the six
quad indices based at the current position count. -/
def MeshBuf.add_quad (buf : MeshBuf) (geom : QuadGeometry) (quad : Quad)
    (voxel_size : ℚ) (layer : Nat) : MeshBuf :=
  let start_index := buf.positions.length
  { buf with
    positions := buf.positions ++ geom.quad_mesh_positions quad voxel_size,
    normals := buf.normals ++ geom.quad_mesh_normals quad,
    tex_coords := buf.tex_coords ++ geom.tex_coords quad,
    layer := buf.layer ++ List.replicate 4 layer,
    indices := buf.indices ++ quad_mesh_indices start_index }

/-- The texture layer computed per quad (src/mesh_generator.rs line 373):
`mat.0 as u32 - 1`, an unsigned subtraction modelled with explicit
wrap-around modulo `2 ^ 32`. -/
def quadLayer (mat : Voxel) : Nat :=
  (mat.val + (2 ^ 32 - 1)) % 2 ^ 32

/-- Model of `create_mesh_for_chunk` (src/mesh_generator.rs lines 323-380). The
external library state is abstracted: `lookup` reads the thread-local padded
`neighborhood_buffer` after `copy_extent`, and `quads` is the concatenation
of the `quad_groups` the external `greedy_quads` call filled into the
thread-local `GreedyQuadsBuffer` (so `num_quads() = quads.length`);
`chunk_extent` and `chunk_shape` come from the pyramid level's indexer. -/
def create_mesh_for_chunk (key : LodChunkKey3) (geom : QuadGeometry)
    (lookup : Point3 → Voxel) (quads : List Quad)
    (chunk_extent : Extent3) (chunk_shape : Point3) : Option MeshBuf :=
  let voxel_size : ℚ := (2 : ℚ) ^ key.lod
  if quads.length = 0 then
    none
  else
    let mesh_buf := { MeshBuf.default with extent := chunk_extent.scale chunk_shape }
    some (quads.foldl (fun mesh_buf quad =>
      let mat := lookup quad.minimum
      mesh_buf.add_quad geom quad voxel_size (quadLayer mat)) mesh_buf)

/-- State threaded through `spawn_mesh_entities` (src/mesh_generator.rs lines
391-482): the ids handed out by `commands.spawn_bundle` and
`mesh_assets.add` (fresh counters), what was spawned/added, and the entities
given `FADE_OUT`. -/
structure SpawnState where
  chunkMeshes : ChunkMeshes
  spawnedEntities : List Nat
  meshAssetsAdded : List Nat
  fadeOuts : List Nat
  nextEntity : Nat
  nextMesh : Nat
deriving DecidableEq

/-- One iteration of the `for (lod_chunk_key, item) in new_chunk_meshes` loop
of `spawn_mesh_entities` (src/mesh_generator.rs lines 399-481). -/
def spawnMeshItem (st : SpawnState) (item : LodChunkKey3 × Option MeshBuf) :
    SpawnState :=
  let lod_chunk_key := item.1
  let step : Option (Nat × Nat) × SpawnState :=
    match item.2 with
    | some mesh_buf =>
      if mesh_buf.indices.isEmpty then
        (none, st)
      else
        let mesh_handle := st.nextMesh
        let entity := st.nextEntity
        let inserted :=
          mapInsert st.chunkMeshes.entities lod_chunk_key (entity, mesh_handle)
        (inserted.2,
          { st with
            chunkMeshes := { st.chunkMeshes with entities := inserted.1 },
            spawnedEntities := st.spawnedEntities ++ [entity],
            meshAssetsAdded := st.meshAssetsAdded ++ [mesh_handle],
            nextEntity := st.nextEntity + 1,
            nextMesh := st.nextMesh + 1 })
    | none =>
      (mapLookup st.chunkMeshes.entities lod_chunk_key,
        { st with
          chunkMeshes :=
            { st.chunkMeshes with
              entities := mapRemoveEntry st.chunkMeshes.entities lod_chunk_key } })
  match step with
  | (some em, st) => { st with fadeOuts := st.fadeOuts ++ [em.1] }
  | (none, st) => st

/-- Model of `spawn_mesh_entities` (src/mesh_generator.rs lines 391-482). -/
def spawn_mesh_entities (new_chunk_meshes : List (LodChunkKey3 × Option MeshBuf))
    (st : SpawnState) : SpawnState :=
  new_chunk_meshes.foldl spawnMeshItem st

def initialSpawnState (cm : ChunkMeshes) (nextEntity nextMesh : Nat) : SpawnState :=
  { chunkMeshes := cm, spawnedEntities := [], meshAssetsAdded := [],
    fadeOuts := [], nextEntity := nextEntity, nextMesh := nextMesh }

/-- Model of `mesh_generator_system` (src/mesh_generator.rs lines 179-213):
`first_run = chunk_meshes.entities.is_empty()`; `apply_mesh_commands` then
`spawn_mesh_entities` on the joined task results. `mesher` stands for the
worker-task body `create_mesh_for_chunk` applied to a key (with the library
data it reads). Returns the apply-phase result and the final spawn state. -/
def mesh_generator_system (thread_num : Nat)
    (mesher : LodChunkKey3 → Option MeshBuf)
    (mesh_commands : MeshCommandQueue) (chunk_meshes : ChunkMeshes)
    (nextEntity nextMesh : Nat) : ApplyResult × SpawnState :=
  let first_run := chunk_meshes.entities.isEmpty
  let applied := apply_mesh_commands thread_num first_run mesh_commands chunk_meshes
  let new_chunk_meshes := applied.state.spawned.map (fun k => (k, mesher k))
  let spawned := spawn_mesh_entities new_chunk_meshes
    (initialSpawnState applied.state.chunkMeshes nextEntity nextMesh)
  (applied, spawned)

/-! ## Despawn pass (src/mesh_generator.rs lines 307-321) -/

structure DespawnResult where
  remove_queue : List (LodChunkKey3 × (Nat × Nat))
  despawned : List Nat
  meshesRemoved : List Nat
deriving DecidableEq

/-- One iteration of the `mesh_despawn_system` query loop: a queried entity
is reaped only when its fade is a completed fade-out AND its key still has an
entry in `remove_queue`. -/
def despawnStep (acc : DespawnResult) (item : FadeUniform × LodChunkKey3) :
    DespawnResult :=
  if item.1.fade_in = false ∧ item.1.remaining = 0 then
    match mapLookup acc.remove_queue item.2 with
    | some em =>
      { remove_queue := mapRemoveEntry acc.remove_queue item.2,
        despawned := acc.despawned ++ [em.1],
        meshesRemoved := acc.meshesRemoved ++ [em.2] }
    | none => acc
  else acc

/-- Model of `mesh_despawn_system` (src/mesh_generator.rs lines 307-321): `query`
yields the `(FadeUniform, LodChunkKey3)` pairs of the entities that carry a
mesh handle. -/
def mesh_despawn_system (query : List (FadeUniform × LodChunkKey3))
    (remove_queue : List (LodChunkKey3 × (Nat × Nat))) : DespawnResult :=
  query.foldl despawnStep
    { remove_queue := remove_queue, despawned := [], meshesRemoved := [] }

/-! ## Chunk generation (src/chunk_generator.rs) -/

/-- Model of `Array3x1<Voxel>` chunk payload, modelled as the flat voxel list. -/
abbrev ChunkArray := List Voxel

/-- Model of `ChunkCommand` (src/chunk_generator.rs lines 66-71). -/
inductive ChunkCommand where
  | generate (key : Point3)
  | edit (key : Point3) (chunk : ChunkArray)
  | remove (key : Point3)
deriving DecidableEq

/-- Model of `ChunkCommandQueue` (src/chunk_generator.rs lines 47-50): a `VecDeque`,
modelled as a list whose head is the deque's front. -/
abbrev ChunkCommandQueue := List ChunkCommand

/-- Model of `ChunkCommandQueue::enqueue` (src/chunk_generator.rs lines 53-55):
`self.commands.push_front(command)`. -/
def ChunkCommandQueue.enqueue (q : ChunkCommandQueue) (command : ChunkCommand) :
    ChunkCommandQueue :=
  command :: q

/-- Model of `max_chunk_creations_per_frame` (src/chunk_generator.rs lines 43-45):
`40 * pool.thread_num()`. -/
def max_chunk_creations_per_frame (thread_num : Nat) : Nat :=
  40 * thread_num

/-- State of the first (task-spawning) loop of `chunk_generator_system`
(src/chunk_generator.rs lines 87-108). -/
structure GenSpawnState where
  num_chunks_generated : Nat
  spawned : List Point3
  examined : List ChunkCommand
deriving DecidableEq

/-- The first loop of `chunk_generator_system`: walks the reversed deque,
spawns a `generate_chunk` task per `Generate`, ignores `Edit`/`Remove`
(their arms are commented out), and breaks once
`num_chunks_generated >= num_chunks_to_generate` (checked after each
command). -/
def chunkSpawnLoop (num_chunks_to_generate : Nat) :
    List ChunkCommand → GenSpawnState → GenSpawnState
  | [], st => st
  | command :: rest, st =>
    let st :=
      match command with
      | .generate key =>
        { num_chunks_generated := st.num_chunks_generated + 1,
          spawned := st.spawned ++ [key],
          examined := st.examined ++ [command] }
      | _ => { st with examined := st.examined ++ [command] }
    if num_chunks_to_generate ≤ st.num_chunks_generated then st
    else chunkSpawnLoop num_chunks_to_generate rest st

/-- State of the second (write-back) loop of `chunk_generator_system`
(src/chunk_generator.rs lines 111-151): `results` is `generated_chunks`
after the source's `reverse()`, consumed head-first (the source pops from the
end of the reversed `Vec`, i.e. in original spawn order). -/
structure GenWriteState where
  num_generates : Nat
  num_edits : Nat
  num_removes : Nat
  results : List (Point3 × ChunkArray)
  writes : List (Point3 × ChunkArray)
  examined : List ChunkCommand
deriving DecidableEq

/-- The second loop of `chunk_generator_system`: per `Generate` pops the next
task result and writes it into LOD 0, per `Edit` writes the given chunk, per
`Remove` only counts; breaks once `num_generates >= num_chunks_to_generate`
(checked after each command). (When `results` is exhausted the source's
`pop().unwrap()` would panic; that situation never arises because both loops
examine the same commands.) -/
def chunkWriteLoop (num_chunks_to_generate : Nat) :
    List ChunkCommand → GenWriteState → GenWriteState
  | [], st => st
  | command :: rest, st =>
    let st :=
      match command with
      | .generate _ =>
        match st.results with
        | res :: results =>
          { st with
            num_generates := st.num_generates + 1,
            results := results,
            writes := st.writes ++ [res],
            examined := st.examined ++ [command] }
        | [] =>
          { st with
            num_generates := st.num_generates + 1,
            examined := st.examined ++ [command] }
      | .edit key chunk =>
        { st with
          num_edits := st.num_edits + 1,
          writes := st.writes ++ [(key, chunk)],
          examined := st.examined ++ [command] }
      | .remove _ =>
        { st with
          num_removes := st.num_removes + 1,
          examined := st.examined ++ [command] }
    if num_chunks_to_generate ≤ st.num_generates then st
    else chunkWriteLoop num_chunks_to_generate rest st

structure ChunkGenResult where
  spawned : List Point3
  writes : List (Point3 × ChunkArray)
  consumed : List ChunkCommand
  queue : ChunkCommandQueue
deriving DecidableEq

/-- Model of `chunk_generator_system` (src/chunk_generator.rs lines 74-171):
budget `chunk_commands.len().min(max_chunk_creations_per_frame(pool))`;
spawn loop, joined `generate_chunk` results (`generate_chunk` is a pure
function of the key and the fixed noise config, passed here as a parameter),
write-back loop, then `truncate(len - (num_generates + num_edits +
num_removes))` keeping the deque's front. The trailing downsample stage does
not touch the queue and is omitted. -/
def chunk_generator_system (thread_num : Nat)
    (generate_chunk : Point3 → Point3 × ChunkArray)
    (chunk_commands : ChunkCommandQueue) : ChunkGenResult :=
  let num_chunks_to_generate :=
    min chunk_commands.length (max_chunk_creations_per_frame thread_num)
  let l1 := chunkSpawnLoop num_chunks_to_generate chunk_commands.reverse
    ⟨0, [], []⟩
  let generated_chunks := l1.spawned.map generate_chunk
  let l2 := chunkWriteLoop num_chunks_to_generate chunk_commands.reverse
    { num_generates := 0, num_edits := 0, num_removes := 0,
      results := generated_chunks, writes := [], examined := [] }
  let new_length :=
    chunk_commands.length - (l2.num_generates + l2.num_edits + l2.num_removes)
  { spawned := l1.spawned, writes := l2.writes, consumed := l2.examined,
    queue := chunk_commands.take new_length }

/-! ## Voxel map configuration (src/voxel_map.rs lines 204-298) -/

def CHUNKS_MINIMUM_XZ : Int := -50
def CHUNKS_MINIMUM_Y : Int := 0
def CHUNKS_SHAPE : Int := 100
def CHUNKS_THICKNESS : Int := 1
def MAX_CLIP_BOX_RADIUS : Int := 32
def MAX_CHUNK_LOG2 : Int := 6
/-- Model of `MAX_LODS` (src/voxel_map.rs line 261): the octree `LocationCode` of the
building-blocks `OctreeSet` is limited to 6 levels. -/
def MAX_LODS : Nat := 6

/-- Rust `x << k` on `i32` for the shift amounts the configurations use
(0 ≤ k < 32, no overflow): multiplication by `2 ^ k`. -/
def shlInt (x k : Int) : Int :=
  x * 2 ^ k.toNat

/-- Model of `VoxelMapConfig` (src/voxel_map.rs lines 204-212). -/
structure VoxelMapConfig where
  chunk_log2 : Int
  chunk_shape : Point3
  num_lods : Nat
  superchunk_shape : Point3
  clip_box_radius : Int
  world_chunks_extent : Extent3
  world_voxel_extent : Extent3
deriving DecidableEq

/-- Model of `VoxelMapConfig::new` (src/voxel_map.rs lines 229-254). It is a plain
constructor: every field is computed unconditionally and a value is always
returned; no input is validated. -/
def VoxelMapConfig.new (chunk_log2 : Int) (num_lods : Nat)
    (clip_box_radius : Int) : VoxelMapConfig :=
  { chunk_log2 := chunk_log2,
    chunk_shape :=
      ⟨shlInt 1 chunk_log2, shlInt 1 chunk_log2, shlInt 1 chunk_log2⟩,
    num_lods := num_lods,
    superchunk_shape :=
      ⟨shlInt 1 (chunk_log2 + num_lods - 1), shlInt 1 (chunk_log2 + num_lods - 1),
        shlInt 1 (chunk_log2 + num_lods - 1)⟩,
    clip_box_radius := clip_box_radius,
    world_chunks_extent :=
      ⟨⟨CHUNKS_MINIMUM_XZ, CHUNKS_MINIMUM_Y, CHUNKS_MINIMUM_XZ⟩,
        ⟨CHUNKS_SHAPE, CHUNKS_THICKNESS, CHUNKS_SHAPE⟩⟩,
    world_voxel_extent :=
      ⟨⟨shlInt CHUNKS_MINIMUM_XZ chunk_log2, shlInt CHUNKS_MINIMUM_Y chunk_log2,
          shlInt CHUNKS_MINIMUM_XZ chunk_log2⟩,
        ⟨shlInt CHUNKS_SHAPE chunk_log2, shlInt CHUNKS_THICKNESS chunk_log2,
          shlInt CHUNKS_SHAPE chunk_log2⟩⟩ }

/-- Modelled from the spec: "Configuration errors (e.g., LOD count exceeding
octree encoding capacity ...) must be rejected at configuration-construction
time with a descriptive failure". A constructor following the spec's words
would return a failure for `num_lods > 6` instead of a configuration value;
this definition exists only to be compared with the source's
`VoxelMapConfig.new` above. -/
def VoxelMapConfigSpec.new (chunk_log2 : Int) (num_lods : Nat)
    (clip_box_radius : Int) : Option VoxelMapConfig :=
  if num_lods > MAX_LODS then none
  else some (VoxelMapConfig.new chunk_log2 num_lods clip_box_radius)

/-- Model of `voxel_map_config_update_system` (src/voxel_map.rs lines 263-298): the
three `just_pressed` keys as booleans. `R` doubles `clip_box_radius`,
wrapping to 1 past `MAX_CLIP_BOX_RADIUS`; `C` increments `chunk_log2`,
wrapping to 1 past `MAX_CHUNK_LOG2`, then rebuilds via `VoxelMapConfig::new`;
`L` increments `num_lods` (a `u8`, hence the explicit `% 256`), wrapping to 1
past `MAX_LODS`, then rebuilds via `VoxelMapConfig::new`. -/
def voxel_map_config_update_system (pressedR pressedC pressedL : Bool)
    (cfg : VoxelMapConfig) : VoxelMapConfig :=
  let cfg :=
    if pressedR then
      let r := cfg.clip_box_radius * 2
      { cfg with clip_box_radius := if r > MAX_CLIP_BOX_RADIUS then 1 else r }
    else cfg
  let cfg :=
    if pressedC then
      let c := cfg.chunk_log2 + 1
      let c := if c > MAX_CHUNK_LOG2 then 1 else c
      VoxelMapConfig.new c cfg.num_lods cfg.clip_box_radius
    else cfg
  let cfg :=
    if pressedL then
      let n := (cfg.num_lods + 1) % 256
      let n := if n > MAX_LODS then 1 else n
      VoxelMapConfig.new cfg.chunk_log2 n cfg.clip_box_radius
    else cfg
  cfg

/-! ## Level of detail (src/level_of_detail.rs) -/

/-- Model of `LodState` (src/level_of_detail.rs lines 37-40). -/
structure LodState where
  old_lod0_center : Point3
deriving DecidableEq

/-- Model of `Point3f::in_voxel()` of building-blocks: componentwise floor. -/
def in_voxel (p : ℚ × ℚ × ℚ) : Point3 :=
  ⟨⌊p.1⌋, ⌊p.2.1⌋, ⌊p.2.2⌋⟩

/-- Rust arithmetic shift right `>> k` on `i32`: floor division by `2 ^ k`. -/
def Point3.sar (p : Point3) (k : Nat) : Point3 :=
  ⟨Int.fdiv p.x (2 ^ k), Int.fdiv p.y (2 ^ k), Int.fdiv p.z (2 ^ k)⟩

/-- The LOD-0 center computation of `level_of_detail_system`
(src/level_of_detail.rs lines 58-66): the camera's `y` is forced to `0.0`,
the position floored to a voxel, then shifted right by `chunk_log2`. -/
def lod0_center_of (camera_position : ℚ × ℚ × ℚ) (chunk_log2 : Int) : Point3 :=
  let camera_position := (camera_position.1, (0 : ℚ), camera_position.2.2)
  (in_voxel camera_position).sar chunk_log2.toNat

structure LodSystemResult where
  lod_state : LodState
  mesh_commands : MeshCommandQueue
  invoked_find_updates : Bool
deriving DecidableEq

/-- Model of `level_of_detail_system` (src/level_of_detail.rs lines 51-82).
`find_clipmap_chunk_updates` is the external octree-index query, passed as a
parameter; the system enqueues `MeshCommand::Update` for each yielded update
and stores the new center, unless the center is unchanged, in which case it
returns early without querying. -/
def level_of_detail_system
    (find_clipmap_chunk_updates : Extent3 → Int → Point3 → Point3 → List LodChunkUpdate3)
    (bounding_extent : Extent3) (clip_box_radius : Int) (chunk_log2 : Int)
    (camera_position : ℚ × ℚ × ℚ) (lod_state : LodState)
    (mesh_commands : MeshCommandQueue) : LodSystemResult :=
  let lod0_center := lod0_center_of camera_position chunk_log2
  if lod0_center = lod_state.old_lod0_center then
    { lod_state := lod_state, mesh_commands := mesh_commands,
      invoked_find_updates := false }
  else
    let updates := find_clipmap_chunk_updates bounding_extent clip_box_radius
      lod_state.old_lod0_center lod0_center
    { lod_state := { old_lod0_center := lod0_center },
      mesh_commands := updates.foldl
        (fun q u => q.enqueue (MeshCommand.update u)) mesh_commands,
      invoked_find_updates := true }

/-! ## Predicates used by the theorems -/

/-- An item of `new_chunk_meshes` makes `spawn_mesh_entities` spawn a render
entity (and add a mesh asset) exactly when it carries a mesh buffer with a
non-empty index list (src/mesh_generator.rs lines 400-474). -/
def spawnsEntity (item : LodChunkKey3 × Option MeshBuf) : Bool :=
  match item.2 with
  | some mesh_buf => !mesh_buf.indices.isEmpty
  | none => false

/-- Modelled from the spec: greedy-quad surface extraction merges
"coplanar, same-material, axis-aligned faces of solid voxels bordering
empty/transparent voxels" — the `greedy_quads` call itself lives in the
external building-blocks mesh library, not in this repository. Every quad
the extraction emits therefore lies on a solid (non-empty) voxel of the
buffer, the one `create_mesh_for_chunk` reads back at `quad.minimum`. -/
def GreedyQuadEmitted (lookup : Point3 → Voxel) (q : Quad) : Prop :=
  lookup q.minimum ≠ Voxel.EMPTY

/-- The padded neighborhood buffer handed to `greedy_quads`: prefilled with
`Voxel::EMPTY` and then `copy_extent`-ed from chunks written by the terrain
generator, whose voxels are `EMPTY` or `height_to_material` values
(src/voxel_map.rs lines 414-421 and src/mesh_generator.rs lines 342-355). -/
def GeneratedBuffer (lookup : Point3 → Voxel) : Prop :=
  ∀ p, lookup p = Voxel.EMPTY ∨ ∃ y config, lookup p = height_to_material y config

/-- Every `MeshCommand` in the queue whose update is a split lists at most 8
finer chunks (the building-blocks `SplitChunk` stores the octants of one
chunk in an 8-capacity array). -/
def splitsBounded (command : MeshCommand) : Prop :=
  match command with
  | .update (.split s) => s.new_chunks.length ≤ 8
  | _ => True

instance (command : MeshCommand) : Decidable (splitsBounded command) := by
  unfold splitsBounded
  cases command with
  | create _ => exact inferInstanceAs (Decidable True)
  | update u =>
    cases u with
    | split s => exact inferInstanceAs (Decidable (_ ≤ _))
    | merge _ => exact inferInstanceAs (Decidable True)

/-- The key a `ChunkCommand::Generate` requests, if any. -/
def generateKey (command : ChunkCommand) : Option Point3 :=
  match command with
  | .generate key => some key
  | _ => none

/-! ## Theorems -/

/-- C9: for every `Voxel` value, including `EMPTY` (0) and `WATER` (1), the
`is_opaque` predicate returns `true`: the face-culling comparison treats
every material as opaque, so no material is ever treated as transparent at
mesh boundaries. -/
theorem voxel_is_opaque_for_all (v : Voxel) :
    v.is_opaque = true ∧ Voxel.EMPTY.is_opaque = true ∧ Voxel.WATER.is_opaque = true :=
  ⟨rfl, rfl, rfl⟩

/-- C2: for a fade with `0 ≤ remaining ≤ duration` and a non-negative frame
delta `dt`, one step of `mesh_fade_update_system` never increases
`remaining`, keeps it in `[0, duration]`, and consumes `delay` before
`remaining` counts down: when `delay > dt` only `delay` shrinks (by `dt`);
when `0 < delay ≤ dt` only the excess `dt - delay` is subtracted (clamped at
0) and `delay` becomes 0. -/
theorem mesh_fade_update_spec (fade : FadeUniform) (dt : ℚ)
    (h0 : 0 ≤ fade.remaining) (h1 : fade.remaining ≤ fade.duration)
    (h2 : 0 ≤ dt) :
    (mesh_fade_update dt fade).remaining ≤ fade.remaining ∧
    0 ≤ (mesh_fade_update dt fade).remaining ∧
    (mesh_fade_update dt fade).remaining ≤ fade.duration ∧
    (dt < fade.delay →
      (mesh_fade_update dt fade).remaining = fade.remaining ∧
      (mesh_fade_update dt fade).delay = fade.delay - dt) ∧
    (0 < fade.delay → fade.delay ≤ dt →
      (mesh_fade_update dt fade).remaining
          = max 0 (fade.remaining - (dt - fade.delay)) ∧
      (mesh_fade_update dt fade).delay = 0) := by
  have hdur : 0 ≤ fade.duration := h0.trans h1
  have key : ∀ x : ℚ, x ≤ fade.duration →
      rustClamp x 0 fade.duration = max 0 x := by
    intro x hxd
    unfold rustClamp
    rcases lt_or_le x 0 with hx | hx
    · rw [if_pos hx, max_eq_left hx.le]
    · rw [if_neg (not_lt.mpr hx), if_neg (not_lt.mpr hxd), max_eq_right hx]
  by_cases hd : fade.delay > 0
  · by_cases hdt : fade.delay > dt
    · have hrw : mesh_fade_update dt fade = { fade with delay := fade.delay - dt } := by
        unfold mesh_fade_update
        rw [if_pos hd, if_pos hdt]
      rw [hrw]
      exact ⟨le_refl _, h0, h1, fun _ => ⟨rfl, rfl⟩,
        fun _ hle => absurd hdt (not_lt.mpr hle)⟩
    · have hrw : mesh_fade_update dt fade =
          { fade with remaining := rustClamp (fade.remaining - (dt - fade.delay)) 0 fade.duration, delay := 0 } := by
        unfold mesh_fade_update
        rw [if_pos hd, if_neg hdt]
      push_neg at hdt
      have hx : fade.remaining - (dt - fade.delay) ≤ fade.duration := by linarith
      rw [hrw, key _ hx]
      refine ⟨max_le h0 (by linarith), le_max_left 0 _, max_le hdur hx,
        fun hlt => absurd hlt (not_lt.mpr hdt), fun _ _ => ⟨rfl, rfl⟩⟩
  · have hrw : mesh_fade_update dt fade =
        { fade with remaining := rustClamp (fade.remaining - dt) 0 fade.duration } := by
      unfold mesh_fade_update
      rw [if_neg hd]
    push_neg at hd
    have hx : fade.remaining - dt ≤ fade.duration := by linarith
    rw [hrw, key _ hx]
    refine ⟨max_le h0 (by linarith), le_max_left 0 _, max_le hdur hx,
      fun hlt => absurd (lt_of_le_of_lt h2 hlt) (not_lt.mpr hd),
      fun hpos _ => absurd hpos (not_lt.mpr hd)⟩

/-- Witness for C2 at `duration = 1`, `remaining = 1/2`, `delay = 1/4`,
`dt = 1/2`. -/
theorem mesh_fade_update_spec_witness :
    ((0 : ℚ) ≤ (⟨1, 1/2, 1/4, false⟩ : FadeUniform).remaining) ∧
    ((⟨1, 1/2, 1/4, false⟩ : FadeUniform).remaining
        ≤ (⟨1, 1/2, 1/4, false⟩ : FadeUniform).duration) ∧
    ((0 : ℚ) ≤ (1/2 : ℚ)) ∧
    ((mesh_fade_update (1/2) ⟨1, 1/2, 1/4, false⟩).remaining
        ≤ (⟨1, 1/2, 1/4, false⟩ : FadeUniform).remaining ∧
      0 ≤ (mesh_fade_update (1/2) ⟨1, 1/2, 1/4, false⟩).remaining ∧
      (mesh_fade_update (1/2) ⟨1, 1/2, 1/4, false⟩).remaining
          ≤ (⟨1, 1/2, 1/4, false⟩ : FadeUniform).duration ∧
      ((1/2 : ℚ) < (⟨1, 1/2, 1/4, false⟩ : FadeUniform).delay →
        (mesh_fade_update (1/2) ⟨1, 1/2, 1/4, false⟩).remaining
            = (⟨1, 1/2, 1/4, false⟩ : FadeUniform).remaining ∧
        (mesh_fade_update (1/2) ⟨1, 1/2, 1/4, false⟩).delay
            = (⟨1, 1/2, 1/4, false⟩ : FadeUniform).delay - 1/2) ∧
      (0 < (⟨1, 1/2, 1/4, false⟩ : FadeUniform).delay →
        (⟨1, 1/2, 1/4, false⟩ : FadeUniform).delay ≤ 1/2 →
        (mesh_fade_update (1/2) ⟨1, 1/2, 1/4, false⟩).remaining
            = max 0 ((⟨1, 1/2, 1/4, false⟩ : FadeUniform).remaining
                - (1/2 - (⟨1, 1/2, 1/4, false⟩ : FadeUniform).delay)) ∧
        (mesh_fade_update (1/2) ⟨1, 1/2, 1/4, false⟩).delay = 0)) :=
  ⟨by norm_num, by norm_num, by norm_num,
    mesh_fade_update_spec ⟨1, 1/2, 1/4, false⟩ (1/2)
      (by norm_num) (by norm_num) (by norm_num)⟩

/-- C5 counterexample: at `chunk_log2 = 5`, `num_lods = 7 > 6`,
`clip_box_radius = 8`, `VoxelMapConfig::new` does not fail: it returns a
configuration value carrying `num_lods = 7`, whereas a constructor following
the spec's words (`VoxelMapConfigSpec.new`) rejects the input. -/
theorem voxel_map_config_new_does_not_reject :
    (VoxelMapConfig.new 5 7 8).num_lods = 7 ∧
    MAX_LODS < (VoxelMapConfig.new 5 7 8).num_lods ∧
    VoxelMapConfigSpec.new 5 7 8 = none := by
  refine ⟨rfl, by decide, ?_⟩
  unfold VoxelMapConfigSpec.new
  rw [if_pos (by decide)]

/-- C5 amended: `VoxelMapConfig::new` performs no validation and returns a
configuration value (with the given `num_lods`) for every input; the bound
`num_lods ≤ MAX_LODS = 6` is instead maintained by
`voxel_map_config_update_system`, which wraps `num_lods` back to 1 whenever
the increment exceeds `MAX_LODS`. -/
theorem voxel_map_config_lod_bound (pressedR pressedC pressedL : Bool)
    (cfg : VoxelMapConfig) (h : cfg.num_lods ≤ MAX_LODS) :
    (∀ chunk_log2 num_lods clip_box_radius,
      (VoxelMapConfig.new chunk_log2 num_lods clip_box_radius).num_lods = num_lods) ∧
    (voxel_map_config_update_system pressedR pressedC pressedL cfg).num_lods ≤ MAX_LODS := by
  refine ⟨fun _ _ _ => rfl, ?_⟩
  unfold voxel_map_config_update_system
  have hR : ∀ c : VoxelMapConfig, c.num_lods ≤ MAX_LODS →
      (if pressedR then
        { c with clip_box_radius := if c.clip_box_radius * 2 > MAX_CLIP_BOX_RADIUS then 1 else c.clip_box_radius * 2 }
      else c).num_lods ≤ MAX_LODS := by
    intro c hc
    split <;> exact hc
  have hC : ∀ c : VoxelMapConfig, c.num_lods ≤ MAX_LODS →
      (if pressedC then
        VoxelMapConfig.new (if c.chunk_log2 + 1 > MAX_CHUNK_LOG2 then 1 else c.chunk_log2 + 1) c.num_lods c.clip_box_radius
      else c).num_lods ≤ MAX_LODS := by
    intro c hc
    split <;> exact hc
  have hL : ∀ c : VoxelMapConfig, c.num_lods ≤ MAX_LODS →
      (if pressedL then
        VoxelMapConfig.new c.chunk_log2 (if (c.num_lods + 1) % 256 > MAX_LODS then 1 else (c.num_lods + 1) % 256) c.clip_box_radius
      else c).num_lods ≤ MAX_LODS := by
    intro c hc
    split
    · show (if (c.num_lods + 1) % 256 > MAX_LODS then 1 else (c.num_lods + 1) % 256) ≤ MAX_LODS
      split
      · decide
      · omega
    · exact hc
  exact hL _ (hC _ (hR _ h))

/-- Witness for C5 at the default configuration (`num_lods = 6`) with the
`L` key pressed: the wrap keeps `num_lods` within the bound. -/
theorem voxel_map_config_lod_bound_witness :
    (VoxelMapConfig.new 5 6 8).num_lods ≤ MAX_LODS ∧
    ((∀ chunk_log2 num_lods clip_box_radius,
        (VoxelMapConfig.new chunk_log2 num_lods clip_box_radius).num_lods = num_lods) ∧
      (voxel_map_config_update_system false false true (VoxelMapConfig.new 5 6 8)).num_lods ≤ MAX_LODS) :=
  ⟨by decide, voxel_map_config_lod_bound false false true (VoxelMapConfig.new 5 6 8) (by decide)⟩

/-- C6: when the camera position's projected LOD-0 chunk coordinate (with
the vertical axis forced to zero) equals the stored old center,
`level_of_detail_system` returns early: the result is the same for every
possible `find_clipmap_chunk_updates` query (so the query is not consulted),
no mesh command is enqueued, and `LodState.old_lod0_center` and the
`MeshCommandQueue` are returned unchanged. -/
theorem level_of_detail_system_noop
    (find_clipmap_chunk_updates : Extent3 → Int → Point3 → Point3 → List LodChunkUpdate3)
    (bounding_extent : Extent3) (clip_box_radius : Int) (chunk_log2 : Int)
    (camera_position : ℚ × ℚ × ℚ) (lod_state : LodState)
    (mesh_commands : MeshCommandQueue)
    (h : lod0_center_of camera_position chunk_log2 = lod_state.old_lod0_center) :
    level_of_detail_system find_clipmap_chunk_updates bounding_extent
        clip_box_radius chunk_log2 camera_position lod_state mesh_commands
      = ⟨lod_state, mesh_commands, false⟩ := by
  unfold level_of_detail_system
  rw [if_pos h]

/-- Witness for C6: camera at the origin with stored center `(0, 0, 0)`. -/
theorem level_of_detail_system_noop_witness :
    lod0_center_of (0, 0, 0) 5 = (⟨⟨0, 0, 0⟩⟩ : LodState).old_lod0_center ∧
    level_of_detail_system (fun _ _ _ _ => []) ⟨⟨0, 0, 0⟩, ⟨0, 0, 0⟩⟩ 8 5
        (0, 0, 0) ⟨⟨0, 0, 0⟩⟩ [] = ⟨⟨⟨0, 0, 0⟩⟩, [], false⟩ := by
  have h : lod0_center_of (0, 0, 0) 5 = (⟨⟨0, 0, 0⟩⟩ : LodState).old_lod0_center := by
    show Point3.sar (in_voxel ((0 : ℚ), (0 : ℚ), (0 : ℚ))) (Int.toNat 5) = ⟨0, 0, 0⟩
    unfold in_voxel Point3.sar
    norm_num
  exact ⟨h, level_of_detail_system_noop (fun _ _ _ _ => []) ⟨⟨0, 0, 0⟩, ⟨0, 0, 0⟩⟩ 8 5
    (0, 0, 0) ⟨⟨0, 0, 0⟩⟩ [] h⟩

lemma spawnMeshItem_counts (st : SpawnState) (item : LodChunkKey3 × Option MeshBuf) :
    (spawnMeshItem st item).spawnedEntities.length
        = st.spawnedEntities.length + (if spawnsEntity item then 1 else 0) ∧
    (spawnMeshItem st item).meshAssetsAdded.length
        = st.meshAssetsAdded.length + (if spawnsEntity item then 1 else 0) := by
  rcases item with ⟨k, itm⟩
  cases itm with
  | none =>
    unfold spawnMeshItem spawnsEntity
    rcases h : mapLookup st.chunkMeshes.entities k with _ | em <;> simp [h]
  | some mesh_buf =>
    by_cases hmb : mesh_buf.indices.isEmpty
    · unfold spawnMeshItem spawnsEntity
      simp [hmb]
    · unfold spawnMeshItem spawnsEntity
      rcases h : (mapInsert st.chunkMeshes.entities k (st.nextEntity, st.nextMesh)).2
        with _ | em <;> simp [hmb, h]

lemma spawn_mesh_entities_counts (items : List (LodChunkKey3 × Option MeshBuf)) :
    ∀ st : SpawnState,
      (spawn_mesh_entities items st).spawnedEntities.length
          = st.spawnedEntities.length + (items.filter spawnsEntity).length ∧
      (spawn_mesh_entities items st).meshAssetsAdded.length
          = st.meshAssetsAdded.length + (items.filter spawnsEntity).length := by
  induction items with
  | nil => intro st; simp [spawn_mesh_entities]
  | cons item rest ih =>
    intro st
    obtain ⟨hs1, hs2⟩ := spawnMeshItem_counts st item
    obtain ⟨ht1, ht2⟩ := ih (spawnMeshItem st item)
    unfold spawn_mesh_entities at ht1 ht2 ⊢
    rw [List.foldl_cons, List.filter_cons]
    cases hsp : spawnsEntity item
    · simp only [hsp, Bool.false_eq_true, if_false] at hs1 hs2 ⊢
      refine ⟨?_, ?_⟩
      · rw [ht1, hs1]
        omega
      · rw [ht2, hs2]
        omega
    · simp only [hsp, if_true] at hs1 hs2 ⊢
      refine ⟨?_, ?_⟩
      · rw [ht1, hs1, List.length_cons]
        omega
      · rw [ht2, hs2, List.length_cons]
        omega

/-- C7: `create_mesh_for_chunk` returns `None` exactly when greedy-quad
extraction yields zero quads; and `spawn_mesh_entities` spawns a render
entity / adds a mesh asset only for items carrying a mesh with a non-empty
index list — in particular never for a `None` item, so no zero-triangle
entity is ever spawned. -/
theorem create_mesh_none_iff_no_quads (key : LodChunkKey3) (geom : QuadGeometry)
    (lookup : Point3 → Voxel) (quads : List Quad)
    (chunk_extent : Extent3) (chunk_shape : Point3)
    (items : List (LodChunkKey3 × Option MeshBuf)) (st : SpawnState) :
    (create_mesh_for_chunk key geom lookup quads chunk_extent chunk_shape = none
        ↔ quads = []) ∧
    (spawn_mesh_entities items st).spawnedEntities.length
        = st.spawnedEntities.length + (items.filter spawnsEntity).length ∧
    (spawn_mesh_entities items st).meshAssetsAdded.length
        = st.meshAssetsAdded.length + (items.filter spawnsEntity).length ∧
    spawnsEntity (key, none) = false := by
  refine ⟨?_, (spawn_mesh_entities_counts items st).1,
    (spawn_mesh_entities_counts items st).2, rfl⟩
  unfold create_mesh_for_chunk
  by_cases hq : quads.length = 0
  · rw [if_pos hq]
    simp [List.length_eq_zero.mp hq]
  · rw [if_neg hq]
    constructor
    · intro hcontr
      exact Option.noConfusion hcontr
    · intro hnil
      exact absurd (by simp [hnil]) hq

lemma height_to_material_range (y : Int) (config : NoiseConfig) :
    1 ≤ (height_to_material y config).val ∧ (height_to_material y config).val ≤ 6 := by
  unfold height_to_material
  split_ifs <;> exact ⟨by decide, by decide⟩

lemma create_fold_layer_bound (geom : QuadGeometry) (lookup : Point3 → Voxel)
    (voxel_size : ℚ) (quads : List Quad) :
    ∀ mesh_buf : MeshBuf,
      (∀ l ∈ mesh_buf.layer, l ≤ 5) →
      (∀ q ∈ quads, quadLayer (lookup q.minimum) ≤ 5) →
      ∀ l ∈ (quads.foldl (fun mesh_buf quad =>
          mesh_buf.add_quad geom quad voxel_size (quadLayer (lookup quad.minimum)))
        mesh_buf).layer, l ≤ 5 := by
  induction quads with
  | nil => intro mesh_buf hbuf _ l hl; exact hbuf l hl
  | cons quad rest ih =>
    intro mesh_buf hbuf hquads l hl
    rw [List.foldl_cons] at hl
    refine ih _ ?_ (fun q hq => hquads q (List.mem_cons_of_mem _ hq)) l hl
    intro l' hl'
    unfold MeshBuf.add_quad at hl'
    simp only [List.mem_append] at hl'
    rcases hl' with hl' | hl'
    · exact hbuf l' hl'
    · rw [List.eq_of_mem_replicate hl']
      exact hquads quad (List.mem_cons_self _ _)

/-- C10: for every quad emitted by greedy-quad extraction over a
generator-filled neighborhood buffer, the voxel at the quad's minimum corner
is non-empty (material value at least 1), so the texture layer
`mat.0 as u32 - 1` computed by `create_mesh_for_chunk` is exactly
`val - 1`, lies in `0..=5`, and the unsigned subtraction never wraps. -/
theorem quad_layer_no_wrap (key : LodChunkKey3) (geom : QuadGeometry)
    (lookup : Point3 → Voxel) (quads : List Quad)
    (chunk_extent : Extent3) (chunk_shape : Point3)
    (hbuf : GeneratedBuffer lookup)
    (hquads : ∀ q ∈ quads, GreedyQuadEmitted lookup q) :
    (∀ q ∈ quads,
      1 ≤ (lookup q.minimum).val ∧
      quadLayer (lookup q.minimum) = (lookup q.minimum).val - 1 ∧
      quadLayer (lookup q.minimum) ≤ 5) ∧
    (∀ mesh_buf,
      create_mesh_for_chunk key geom lookup quads chunk_extent chunk_shape
          = some mesh_buf →
      ∀ l ∈ mesh_buf.layer, l ≤ 5) := by
  have hq : ∀ q ∈ quads,
      1 ≤ (lookup q.minimum).val ∧
      quadLayer (lookup q.minimum) = (lookup q.minimum).val - 1 ∧
      quadLayer (lookup q.minimum) ≤ 5 := by
    intro q hqmem
    have hrange : 1 ≤ (lookup q.minimum).val ∧ (lookup q.minimum).val ≤ 6 := by
      rcases hbuf q.minimum with hemp | ⟨y, config, hgen⟩
      · exact absurd hemp (hquads q hqmem)
      · rw [hgen]
        exact height_to_material_range y config
    refine ⟨hrange.1, ?_, ?_⟩ <;> unfold quadLayer <;> omega
  refine ⟨hq, fun mesh_buf hmb l hl => ?_⟩
  unfold create_mesh_for_chunk at hmb
  by_cases hlen : quads.length = 0
  · rw [if_pos hlen] at hmb
    exact Option.noConfusion hmb
  · rw [if_neg hlen] at hmb
    have := Option.some.inj hmb
    subst this
    refine create_fold_layer_bound geom lookup _ quads _ ?_ ?_ l hl
    · intro l' hl'
      exact absurd hl' (by simp [MeshBuf.default])
    · intro q hqmem
      exact (hq q hqmem).2.2

/-- Witness for C10: a buffer uniformly filled with the grass material and
one quad at the origin. -/
theorem quad_layer_no_wrap_witness :
    GeneratedBuffer (fun _ => height_to_material 200 NoiseConfig.default) ∧
    (∀ q ∈ [(⟨⟨0, 0, 0⟩⟩ : Quad)],
      GreedyQuadEmitted (fun _ => height_to_material 200 NoiseConfig.default) q) ∧
    ((∀ q ∈ [(⟨⟨0, 0, 0⟩⟩ : Quad)],
      1 ≤ ((fun (_ : Point3) => height_to_material 200 NoiseConfig.default) q.minimum).val ∧
      quadLayer ((fun (_ : Point3) => height_to_material 200 NoiseConfig.default) q.minimum)
          = ((fun (_ : Point3) => height_to_material 200 NoiseConfig.default) q.minimum).val - 1 ∧
      quadLayer ((fun (_ : Point3) => height_to_material 200 NoiseConfig.default) q.minimum) ≤ 5) ∧
    (∀ mesh_buf,
      create_mesh_for_chunk ⟨0, ⟨0, 0, 0⟩⟩ ⟨fun _ _ => [], fun _ => [], fun _ => []⟩
          (fun _ => height_to_material 200 NoiseConfig.default) [⟨⟨0, 0, 0⟩⟩]
          ⟨⟨0, 0, 0⟩, ⟨1, 1, 1⟩⟩ ⟨32, 32, 32⟩ = some mesh_buf →
      ∀ l ∈ mesh_buf.layer, l ≤ 5)) := by
  have hbuf : GeneratedBuffer (fun _ => height_to_material 200 NoiseConfig.default) :=
    fun _ => Or.inr ⟨200, NoiseConfig.default, rfl⟩
  have hquads : ∀ q ∈ [(⟨⟨0, 0, 0⟩⟩ : Quad)],
      GreedyQuadEmitted (fun _ => height_to_material 200 NoiseConfig.default) q := by
    intro q _
    show height_to_material 200 NoiseConfig.default ≠ Voxel.EMPTY
    have hmat : height_to_material 200 NoiseConfig.default = Voxel.GRASS := by
      unfold height_to_material scale_noise NoiseConfig.default
      norm_num
    rw [hmat]
    decide
  exact ⟨hbuf, hquads,
    quad_layer_no_wrap ⟨0, ⟨0, 0, 0⟩⟩ ⟨fun _ _ => [], fun _ => [], fun _ => []⟩
      (fun _ => height_to_material 200 NoiseConfig.default) [⟨⟨0, 0, 0⟩⟩]
      ⟨⟨0, 0, 0⟩, ⟨1, 1, 1⟩⟩ ⟨32, 32, 32⟩ hbuf hquads⟩

lemma mapLookup_removeEntry_ne {K V : Type} [DecidableEq K]
    (m : List (K × V)) (key k : K) (h : k ≠ key) :
    mapLookup (mapRemoveEntry m key) k = mapLookup m k := by
  induction m with
  | nil => rfl
  | cons entry rest ih =>
    rcases entry with ⟨k', v'⟩
    unfold mapRemoveEntry
    by_cases hk : k' = key
    · have hne : ¬ k' = k := fun hkk => h ((hkk ▸ hk : k = key))
      rw [if_pos hk, ih]
      simp only [mapLookup, if_neg hne]
    · rw [if_neg hk]
      simp only [mapLookup]
      by_cases hkk : k' = k
      · rw [if_pos hkk, if_pos hkk]
      · rw [if_neg hkk, if_neg hkk, ih]

lemma despawnStep_despawned_mono (acc : DespawnResult)
    (item : FadeUniform × LodChunkKey3) :
    ∃ t, (despawnStep acc item).despawned = acc.despawned ++ t := by
  unfold despawnStep
  by_cases hc : item.1.fade_in = false ∧ item.1.remaining = 0
  · rw [if_pos hc]
    rcases h : mapLookup acc.remove_queue item.2 with _ | em
    · exact ⟨[], (List.append_nil _).symm⟩
    · exact ⟨[em.1], rfl⟩
  · rw [if_neg hc]
    exact ⟨[], (List.append_nil _).symm⟩

lemma despawnFold_despawned_mono (query : List (FadeUniform × LodChunkKey3)) :
    ∀ acc : DespawnResult,
      ∃ t, (query.foldl despawnStep acc).despawned = acc.despawned ++ t := by
  induction query with
  | nil => intro acc; exact ⟨[], (List.append_nil _).symm⟩
  | cons item rest ih =>
    intro acc
    obtain ⟨t1, h1⟩ := despawnStep_despawned_mono acc item
    obtain ⟨t2, h2⟩ := ih (despawnStep acc item)
    exact ⟨t1 ++ t2, by rw [List.foldl_cons, h2, h1, List.append_assoc]⟩

lemma despawnFold_hits_remove_queue (query : List (FadeUniform × LodChunkKey3)) :
    ∀ (acc : DespawnResult) (f : FadeUniform) (k : LodChunkKey3) (em : Nat × Nat),
      (f, k) ∈ query → f.fade_in = false → f.remaining = 0 →
      mapLookup acc.remove_queue k = some em →
      em.1 ∈ (query.foldl despawnStep acc).despawned := by
  induction query with
  | nil =>
    intro acc f k em hmem
    exact absurd hmem (List.not_mem_nil _)
  | cons item rest ih =>
    intro acc f k em hmem hfi hrem hrq
    rw [List.foldl_cons]
    rcases List.mem_cons.mp hmem with hhead | htail
    · subst hhead
      have hc : ((f, k) : FadeUniform × LodChunkKey3).1.fade_in = false ∧
          ((f, k) : FadeUniform × LodChunkKey3).1.remaining = 0 := ⟨hfi, hrem⟩
      have hk : ((f, k) : FadeUniform × LodChunkKey3).2 = k := rfl
      have hstep : (despawnStep acc (f, k)).despawned = acc.despawned ++ [em.1] := by
        unfold despawnStep
        rw [if_pos hc, hk, hrq]
      obtain ⟨t, ht⟩ := despawnFold_despawned_mono rest (despawnStep acc (f, k))
      rw [ht, hstep]
      simp
    · by_cases hc : item.1.fade_in = false ∧ item.1.remaining = 0
      · rcases h : mapLookup acc.remove_queue item.2 with _ | em'
        · have hacc : despawnStep acc item = acc := by
            unfold despawnStep
            rw [if_pos hc, h]
          rw [hacc]
          exact ih acc f k em htail hfi hrem hrq
        · by_cases hkk : item.2 = k
          · have hsame : em' = em := by
              rw [hkk] at h
              exact Option.some.inj (h.symm.trans hrq)
            have hstep : (despawnStep acc item).despawned
                = acc.despawned ++ [em.1] := by
              unfold despawnStep
              rw [if_pos hc, h, hsame]
            obtain ⟨t, ht⟩ := despawnFold_despawned_mono rest (despawnStep acc item)
            rw [ht, hstep]
            simp
          · have hstep : (despawnStep acc item).remove_queue
                = mapRemoveEntry acc.remove_queue item.2 := by
              unfold despawnStep
              rw [if_pos hc, h]
            have hlook : mapLookup (despawnStep acc item).remove_queue k = some em := by
              rw [hstep, mapLookup_removeEntry_ne _ _ _ (fun hkeq => hkk hkeq.symm)]
              exact hrq
            exact ih (despawnStep acc item) f k em htail hfi hrem hlook
      · have hacc : despawnStep acc item = acc := by
          unfold despawnStep
          rw [if_neg hc]
        rw [hacc]
        exact ih acc f k em htail hfi hrem hrq

/-- C8 counterexample: an entity superseded by an empty mesh. The key has an
entity `(7, 3)` in `ChunkMeshes.entities`; `spawn_mesh_entities` processes a
`(key, None)` result, removes the entry and marks entity 7 `FADE_OUT`, but
puts nothing into `remove_queue`. A later despawn pass that sees entity 7
with a completed fade-out (`fade_in = false`, `remaining = 0`) despawns
nothing, so the entity is never finally removed, contradicting the claim. -/
theorem mesh_despawn_misses_replaced_entity :
    (spawn_mesh_entities [(⟨0, ⟨0, 0, 0⟩⟩, none)]
        (initialSpawnState ⟨[(⟨0, ⟨0, 0, 0⟩⟩, (7, 3))], []⟩ 10 10)).fadeOuts = [7] ∧
    (spawn_mesh_entities [(⟨0, ⟨0, 0, 0⟩⟩, none)]
        (initialSpawnState ⟨[(⟨0, ⟨0, 0, 0⟩⟩, (7, 3))], []⟩ 10 10)).chunkMeshes.remove_queue = [] ∧
    ((⟨FADE_DURATION, 0, 0, false⟩ : FadeUniform).fade_in = false ∧
      (⟨FADE_DURATION, 0, 0, false⟩ : FadeUniform).remaining = 0) ∧
    (mesh_despawn_system [(⟨FADE_DURATION, 0, 0, false⟩, ⟨0, ⟨0, 0, 0⟩⟩)]
        (spawn_mesh_entities [(⟨0, ⟨0, 0, 0⟩⟩, none)]
          (initialSpawnState ⟨[(⟨0, ⟨0, 0, 0⟩⟩, (7, 3))], []⟩ 10 10)).chunkMeshes.remove_queue).despawned
      = [] := by
  refine ⟨rfl, rfl, ⟨rfl, rfl⟩, ?_⟩
  rfl

/-- C8 amended: each frame the despawn pass finally removes exactly those
fully-faded-out mesh entities whose key is still present in
`ChunkMeshes.remove_queue` — i.e. those superseded by a Split or Merge
update, which are the only paths that populate `remove_queue`; an entity
superseded through `spawn_mesh_entities` (replacement, including replacement
by an empty mesh) is marked `FADE_OUT` but never entered into
`remove_queue`, and the despawn pass does not remove it. -/
theorem mesh_despawn_removes_queue_entries
    (query : List (FadeUniform × LodChunkKey3))
    (remove_queue : List (LodChunkKey3 × (Nat × Nat)))
    (f : FadeUniform) (k : LodChunkKey3) (em : Nat × Nat)
    (hmem : (f, k) ∈ query) (hfi : f.fade_in = false) (hrem : f.remaining = 0)
    (hrq : mapLookup remove_queue k = some em) :
    em.1 ∈ (mesh_despawn_system query remove_queue).despawned := by
  unfold mesh_despawn_system
  exact despawnFold_hits_remove_queue query _ f k em hmem hfi hrem hrq

/-- Witness for C8 (amended): a completed fade-out whose key is in the
remove queue gets its entity (7) despawned. -/
theorem mesh_despawn_removes_queue_entries_witness :
    ((⟨FADE_DURATION, 0, 0, false⟩ : FadeUniform), (⟨0, ⟨0, 0, 0⟩⟩ : LodChunkKey3))
        ∈ [((⟨FADE_DURATION, 0, 0, false⟩ : FadeUniform), (⟨0, ⟨0, 0, 0⟩⟩ : LodChunkKey3))] ∧
    (⟨FADE_DURATION, 0, 0, false⟩ : FadeUniform).fade_in = false ∧
    (⟨FADE_DURATION, 0, 0, false⟩ : FadeUniform).remaining = 0 ∧
    mapLookup [((⟨0, ⟨0, 0, 0⟩⟩ : LodChunkKey3), ((7 : Nat), (3 : Nat)))] ⟨0, ⟨0, 0, 0⟩⟩
        = some (7, 3) ∧
    (7 : Nat) ∈ (mesh_despawn_system
        [(⟨FADE_DURATION, 0, 0, false⟩, ⟨0, ⟨0, 0, 0⟩⟩)]
        [(⟨0, ⟨0, 0, 0⟩⟩, (7, 3))]).despawned :=
  ⟨List.mem_singleton.mpr rfl, rfl, rfl, by decide,
    mesh_despawn_removes_queue_entries _ _ _ _ (7, 3)
      (List.mem_singleton.mpr rfl) rfl rfl (by decide)⟩

lemma fadeOutEntry_examined (st : ApplyState) (lod_key : LodChunkKey3) :
    (fadeOutEntry st lod_key).examined = st.examined := by
  unfold fadeOutEntry
  rcases mapLookup st.chunkMeshes.entities lod_key with _ | em <;> rfl

lemma spawnIfAbsent_examined (st : ApplyState) (lod_key : LodChunkKey3) :
    (spawnIfAbsent st lod_key).examined = st.examined := by
  unfold spawnIfAbsent
  split <;> rfl

lemma foldl_fadeOutEntry_examined (ks : List LodChunkKey3) :
    ∀ st : ApplyState, (ks.foldl fadeOutEntry st).examined = st.examined := by
  induction ks with
  | nil => intro st; rfl
  | cons k rest ih =>
    intro st
    rw [List.foldl_cons, ih, fadeOutEntry_examined]

lemma foldl_spawnIfAbsent_examined (ks : List LodChunkKey3) :
    ∀ st : ApplyState, (ks.foldl spawnIfAbsent st).examined = st.examined := by
  induction ks with
  | nil => intro st; rfl
  | cons k rest ih =>
    intro st
    rw [List.foldl_cons, ih, spawnIfAbsent_examined]

lemma processMeshCommand_examined (st : ApplyState) (command : MeshCommand) :
    (processMeshCommand st command).examined = st.examined ++ [command] := by
  cases command with
  | create lod_key =>
    simp only [processMeshCommand]
    split <;> rfl
  | update u =>
    cases u with
    | split s =>
      simp only [processMeshCommand]
      rw [foldl_spawnIfAbsent_examined, fadeOutEntry_examined]
    | merge m =>
      simp only [processMeshCommand]
      rw [spawnIfAbsent_examined, foldl_fadeOutEntry_examined]

lemma applyMeshLoop_examined_prefix (first_run : Bool) (budget : Nat) :
    ∀ (l : List MeshCommand) (st : ApplyState),
      ∃ n, (applyMeshLoop first_run budget l st).examined = st.examined ++ l.take n := by
  intro l
  induction l with
  | nil =>
    intro st
    exact ⟨0, by simp [applyMeshLoop]⟩
  | cons command rest ih =>
    intro st
    show ∃ n,
      (if first_run = false ∧ budget ≤ (processMeshCommand st command).num_meshes_created
        then processMeshCommand st command
        else applyMeshLoop first_run budget rest (processMeshCommand st command)).examined
      = st.examined ++ (command :: rest).take n
    by_cases hbr : first_run = false ∧
        budget ≤ (processMeshCommand st command).num_meshes_created
    · rw [if_pos hbr]
      exact ⟨1, by rw [processMeshCommand_examined]; rfl⟩
    · rw [if_neg hbr]
      obtain ⟨n, hn⟩ := ih (processMeshCommand st command)
      refine ⟨n + 1, ?_⟩
      rw [hn, processMeshCommand_examined, List.take_succ_cons,
        List.append_assoc]
      rfl

lemma foldl_enqueue_eq_reverse_append (cs : List MeshCommand) :
    ∀ q0 : MeshCommandQueue, cs.foldl MeshCommandQueue.enqueue q0 = cs.reverse ++ q0 := by
  induction cs with
  | nil => intro q0; simp
  | cons c rest ih =>
    intro q0
    rw [List.foldl_cons, ih, List.reverse_cons, List.append_assoc]
    rfl

/-- C1 amended: consumption of the `MeshCommandQueue` is FIFO, not LIFO.
`enqueue` pushes to the deque's front and `apply_mesh_commands` walks the
deque via `iter().rev()`, so the first command it examines and processes is
the LEAST recently enqueued one, and the commands examined in one invocation
are processed in order from least recently to most recently enqueued: they
form a prefix of the enqueue order (oldest first). -/
theorem apply_mesh_commands_fifo (thread_num : Nat) (first_run : Bool)
    (enqueued : List MeshCommand) (chunk_meshes : ChunkMeshes) :
    ∃ n, (apply_mesh_commands thread_num first_run
        (enqueued.foldl MeshCommandQueue.enqueue []) chunk_meshes).state.examined
      = enqueued.take n := by
  unfold apply_mesh_commands
  rw [foldl_enqueue_eq_reverse_append, List.append_nil, List.reverse_reverse]
  obtain ⟨n, hn⟩ := applyMeshLoop_examined_prefix first_run _ enqueued
    (initialApplyState chunk_meshes)
  exact ⟨n, by rw [hn]; rfl⟩

/-- C1 counterexample: enqueue `create (0,(0,0,0))` then `create (0,(1,0,0))`
(the latter most recent). `apply_mesh_commands` examines the commands in the
order `[oldest, newest]`: the first command examined is the LEAST recently
enqueued one, not the most recently enqueued one as the claim states. -/
theorem apply_mesh_commands_first_examined_is_oldest :
    (apply_mesh_commands 1 false
        (MeshCommandQueue.enqueue
          (MeshCommandQueue.enqueue [] (MeshCommand.create ⟨0, ⟨0, 0, 0⟩⟩))
          (MeshCommand.create ⟨0, ⟨1, 0, 0⟩⟩))
        ⟨[], []⟩).state.examined
      = [MeshCommand.create ⟨0, ⟨0, 0, 0⟩⟩, MeshCommand.create ⟨0, ⟨1, 0, 0⟩⟩] ∧
    (apply_mesh_commands 1 false
        (MeshCommandQueue.enqueue
          (MeshCommandQueue.enqueue [] (MeshCommand.create ⟨0, ⟨0, 0, 0⟩⟩))
          (MeshCommand.create ⟨0, ⟨1, 0, 0⟩⟩))
        ⟨[], []⟩).state.examined.head?
      = some (MeshCommand.create ⟨0, ⟨0, 0, 0⟩⟩) ∧
    MeshCommand.create (⟨0, ⟨0, 0, 0⟩⟩ : LodChunkKey3)
      ≠ MeshCommand.create ⟨0, ⟨1, 0, 0⟩⟩ := by
  refine ⟨?_, ?_, by decide⟩ <;> rfl

lemma fadeOutEntry_counts (st : ApplyState) (k : LodChunkKey3) :
    (fadeOutEntry st k).num_meshes_created = st.num_meshes_created ∧
    (fadeOutEntry st k).spawned = st.spawned := by
  unfold fadeOutEntry
  rcases mapLookup st.chunkMeshes.entities k with _ | em <;> exact ⟨rfl, rfl⟩

lemma foldl_fadeOutEntry_counts (ks : List LodChunkKey3) :
    ∀ st : ApplyState,
      (ks.foldl fadeOutEntry st).num_meshes_created = st.num_meshes_created ∧
      (ks.foldl fadeOutEntry st).spawned = st.spawned := by
  induction ks with
  | nil => intro st; exact ⟨rfl, rfl⟩
  | cons k rest ih =>
    intro st
    rw [List.foldl_cons]
    obtain ⟨h1, h2⟩ := ih (fadeOutEntry st k)
    obtain ⟨g1, g2⟩ := fadeOutEntry_counts st k
    exact ⟨h1.trans g1, h2.trans g2⟩

lemma spawnIfAbsent_inv (st : ApplyState) (k : LodChunkKey3)
    (h : st.num_meshes_created = st.spawned.length) :
    (spawnIfAbsent st k).num_meshes_created = (spawnIfAbsent st k).spawned.length := by
  unfold spawnIfAbsent
  split
  · simp [h]
  · exact h

lemma spawnIfAbsent_le (st : ApplyState) (k : LodChunkKey3) :
    (spawnIfAbsent st k).num_meshes_created ≤ st.num_meshes_created + 1 := by
  unfold spawnIfAbsent
  split
  · exact le_refl _
  · exact Nat.le_succ _

lemma foldl_spawnIfAbsent_inv (ks : List LodChunkKey3) :
    ∀ st : ApplyState, st.num_meshes_created = st.spawned.length →
      (ks.foldl spawnIfAbsent st).num_meshes_created
        = (ks.foldl spawnIfAbsent st).spawned.length := by
  induction ks with
  | nil => intro st h; exact h
  | cons k rest ih =>
    intro st h
    rw [List.foldl_cons]
    exact ih _ (spawnIfAbsent_inv st k h)

lemma foldl_spawnIfAbsent_le (ks : List LodChunkKey3) :
    ∀ st : ApplyState,
      (ks.foldl spawnIfAbsent st).num_meshes_created
        ≤ st.num_meshes_created + ks.length := by
  induction ks with
  | nil => intro st; exact le_refl _
  | cons k rest ih =>
    intro st
    rw [List.foldl_cons, List.length_cons]
    calc (rest.foldl spawnIfAbsent (spawnIfAbsent st k)).num_meshes_created
        ≤ (spawnIfAbsent st k).num_meshes_created + rest.length := ih _
      _ ≤ st.num_meshes_created + 1 + rest.length :=
          Nat.add_le_add_right (spawnIfAbsent_le st k) _
      _ = st.num_meshes_created + (rest.length + 1) := by omega

lemma fadeOutEntry_inv (st : ApplyState) (k : LodChunkKey3)
    (h : st.num_meshes_created = st.spawned.length) :
    (fadeOutEntry st k).num_meshes_created = (fadeOutEntry st k).spawned.length := by
  obtain ⟨g1, g2⟩ := fadeOutEntry_counts st k
  rw [g1, g2]
  exact h

lemma foldl_fadeOutEntry_inv (ks : List LodChunkKey3) (st : ApplyState)
    (h : st.num_meshes_created = st.spawned.length) :
    (ks.foldl fadeOutEntry st).num_meshes_created
      = (ks.foldl fadeOutEntry st).spawned.length := by
  obtain ⟨g1, g2⟩ := foldl_fadeOutEntry_counts ks st
  rw [g1, g2]
  exact h

lemma processMeshCommand_inv (st : ApplyState) (command : MeshCommand)
    (h : st.num_meshes_created = st.spawned.length) :
    (processMeshCommand st command).num_meshes_created
      = (processMeshCommand st command).spawned.length := by
  cases command with
  | create lod_key =>
    simp only [processMeshCommand]
    split
    · show st.num_meshes_created + 1 = (st.spawned ++ [lod_key]).length
      rw [List.length_append, h]
      rfl
    · exact h
  | update u =>
    cases u with
    | split s =>
      simp only [processMeshCommand]
      exact foldl_spawnIfAbsent_inv _ _ (fadeOutEntry_inv _ _ h)
    | merge m =>
      simp only [processMeshCommand]
      exact spawnIfAbsent_inv _ _ (foldl_fadeOutEntry_inv _ _ h)

lemma processMeshCommand_le (st : ApplyState) (command : MeshCommand)
    (hb : splitsBounded command) :
    (processMeshCommand st command).num_meshes_created
      ≤ st.num_meshes_created + 8 := by
  cases command with
  | create lod_key =>
    simp only [processMeshCommand]
    split
    · show st.num_meshes_created + 1 ≤ st.num_meshes_created + 8
      omega
    · show st.num_meshes_created ≤ st.num_meshes_created + 8
      omega
  | update u =>
    cases u with
    | split s =>
      simp only [processMeshCommand]
      have hlen : s.new_chunks.length ≤ 8 := hb
      refine le_trans (foldl_spawnIfAbsent_le _ _) ?_
      rw [(fadeOutEntry_counts _ s.old_chunk).1]
      show st.num_meshes_created + s.new_chunks.length ≤ st.num_meshes_created + 8
      omega
    | merge m =>
      simp only [processMeshCommand]
      refine le_trans (spawnIfAbsent_le _ _) ?_
      rw [(foldl_fadeOutEntry_counts m.old_chunks _).1]
      show st.num_meshes_created + 1 ≤ st.num_meshes_created + 8
      omega

lemma applyMeshLoop_budget (budget : Nat) :
    ∀ (l : List MeshCommand) (st : ApplyState),
      (∀ c ∈ l, splitsBounded c) →
      st.num_meshes_created = st.spawned.length →
      st.num_meshes_created < budget →
      (applyMeshLoop false budget l st).spawned.length ≤ budget + 7 := by
  intro l
  induction l with
  | nil =>
    intro st _ hinv hlt
    show st.spawned.length ≤ budget + 7
    omega
  | cons command rest ih =>
    intro st hb hinv hlt
    have hb1 : splitsBounded command := hb command (List.mem_cons_self _ _)
    have hinv' := processMeshCommand_inv st command hinv
    have hle := processMeshCommand_le st command hb1
    show (if false = false ∧ budget ≤ (processMeshCommand st command).num_meshes_created
        then processMeshCommand st command
        else applyMeshLoop false budget rest (processMeshCommand st command)).spawned.length
      ≤ budget + 7
    by_cases hbr : false = false ∧
        budget ≤ (processMeshCommand st command).num_meshes_created
    · rw [if_pos hbr]
      calc (processMeshCommand st command).spawned.length
          = (processMeshCommand st command).num_meshes_created := hinv'.symm
        _ ≤ st.num_meshes_created + 8 := hle
        _ ≤ budget + 7 := by omega
    · rw [if_neg hbr]
      refine ih _ (fun c hc => hb c (List.mem_cons_of_mem _ hc)) hinv' ?_
      by_contra hge
      exact hbr ⟨rfl, Nat.le_of_not_lt hge⟩

/-- C4 amended: when some mesh entity already exists (`first_run = false`)
and every Split update lists at most 8 finer chunks, one invocation of
`mesh_generator_system` spawns at most
`min(queue length, 40 × thread count) + 7` mesh-generation tasks: the loop
stops once the spawn count reaches the budget, but a single Split can
overshoot it by up to 7. (On the very first run — no mesh entities yet —
the source skips the budget check entirely and processes the whole queue;
the number of commands consumed is `num_creates + num_updates`, which is not
bounded by the budget either.) -/
theorem mesh_generator_spawn_budget (thread_num : Nat)
    (mesher : LodChunkKey3 → Option MeshBuf)
    (mesh_commands : MeshCommandQueue) (chunk_meshes : ChunkMeshes)
    (nextEntity nextMesh : Nat) (hT : 1 ≤ thread_num)
    (hrun : chunk_meshes.entities ≠ [])
    (hsplits : ∀ c ∈ mesh_commands, splitsBounded c) :
    (mesh_generator_system thread_num mesher mesh_commands chunk_meshes
        nextEntity nextMesh).1.state.spawned.length
      ≤ min mesh_commands.length (max_mesh_creations_per_frame thread_num) + 7 := by
  have hfr : chunk_meshes.entities.isEmpty = false := by
    cases h : chunk_meshes.entities with
    | nil => exact absurd h hrun
    | cons a l => rfl
  show (applyMeshLoop chunk_meshes.entities.isEmpty
      (min mesh_commands.length (max_mesh_creations_per_frame thread_num))
      mesh_commands.reverse (initialApplyState chunk_meshes)).spawned.length ≤ _
  rw [hfr]
  cases hq : mesh_commands with
  | nil =>
    show (([] : List LodChunkKey3)).length ≤ _
    exact Nat.zero_le _
  | cons c q' =>
    refine applyMeshLoop_budget _ _ _ ?_ rfl ?_
    · intro c' hc'
      exact hsplits c' (by rw [hq]; exact List.mem_reverse.mp (hq ▸ hc'))
    · show 0 < min (c :: q').length (max_mesh_creations_per_frame thread_num)
      have h1 : 0 < (c :: q').length := Nat.succ_pos _
      have h2 : 0 < max_mesh_creations_per_frame thread_num := by
        unfold max_mesh_creations_per_frame
        omega
      omega

/-- Witness for C4 (amended): a one-command queue against a non-empty
`ChunkMeshes`. -/
theorem mesh_generator_spawn_budget_witness :
    1 ≤ 1 ∧
    (⟨[((⟨0, ⟨1, 1, 1⟩⟩ : LodChunkKey3), ((1 : Nat), (2 : Nat)))], []⟩ : ChunkMeshes).entities ≠ [] ∧
    (∀ c ∈ [MeshCommand.create (⟨0, ⟨0, 0, 0⟩⟩ : LodChunkKey3)], splitsBounded c) ∧
    (mesh_generator_system 1 (fun _ => none)
        [MeshCommand.create ⟨0, ⟨0, 0, 0⟩⟩]
        ⟨[(⟨0, ⟨1, 1, 1⟩⟩, (1, 2))], []⟩ 0 0).1.state.spawned.length
      ≤ min [MeshCommand.create (⟨0, ⟨0, 0, 0⟩⟩ : LodChunkKey3)].length
          (max_mesh_creations_per_frame 1) + 7 :=
  ⟨le_refl 1, by decide, by decide,
    mesh_generator_spawn_budget 1 (fun _ => none)
      [MeshCommand.create ⟨0, ⟨0, 0, 0⟩⟩] ⟨[(⟨0, ⟨1, 1, 1⟩⟩, (1, 2))], []⟩ 0 0
      (le_refl 1) (by decide) (by decide)⟩

/-- C4 counterexample: on the first run (`chunk_meshes.entities` empty) the
budget is not applied at all. With 41 Create commands and one worker thread
(`40 × T = 40`), the invocation spawns 41 tasks and consumes 41 commands,
exceeding both claimed bounds — the claim's "in every invocation (including
the first)" is false. -/
theorem mesh_generator_first_run_unbudgeted :
    (mesh_generator_system 1 (fun _ => none)
        ((List.range 41).map (fun i => MeshCommand.create ⟨0, ⟨(i : Int), 0, 0⟩⟩))
        ⟨[], []⟩ 0 0).1.state.spawned.length = 41 ∧
    (mesh_generator_system 1 (fun _ => none)
        ((List.range 41).map (fun i => MeshCommand.create ⟨0, ⟨(i : Int), 0, 0⟩⟩))
        ⟨[], []⟩ 0 0).1.state.num_creates
      + (mesh_generator_system 1 (fun _ => none)
        ((List.range 41).map (fun i => MeshCommand.create ⟨0, ⟨(i : Int), 0, 0⟩⟩))
        ⟨[], []⟩ 0 0).1.state.num_updates = 41 ∧
    max_mesh_creations_per_frame 1 = 40 ∧
    ((List.range 41).map
      (fun i => MeshCommand.create (⟨0, ⟨(i : Int), 0, 0⟩⟩ : LodChunkKey3))).length = 41 ∧
    40 < 41 := by
  set_option maxRecDepth 4000 in
  refine ⟨?_, ?_, rfl, ?_, by omega⟩ <;> rfl

lemma chunkSpawnLoop_cons_ex (B : Nat) (command : ChunkCommand)
    (rest : List ChunkCommand) (st : GenSpawnState) :
    ∃ st1 : GenSpawnState,
      chunkSpawnLoop B (command :: rest) st =
        (if B ≤ st1.num_chunks_generated then st1 else chunkSpawnLoop B rest st1) ∧
      st1.examined = st.examined ++ [command] ∧
      st1.spawned = st.spawned ++ (generateKey command).toList ∧
      st1.num_chunks_generated
        = st.num_chunks_generated + (generateKey command).toList.length := by
  obtain ⟨n, sp, ex⟩ := st
  cases command with
  | generate key =>
    exact ⟨⟨n + 1, sp ++ [key], ex ++ [ChunkCommand.generate key]⟩, rfl, rfl, rfl, rfl⟩
  | edit key chunk =>
    exact ⟨⟨n, sp, ex ++ [ChunkCommand.edit key chunk]⟩, rfl, rfl,
      by simp [generateKey], by simp [generateKey]⟩
  | remove key =>
    exact ⟨⟨n, sp, ex ++ [ChunkCommand.remove key]⟩, rfl, rfl,
      by simp [generateKey], by simp [generateKey]⟩

lemma chunkWriteLoop_cons_ex (B : Nat) (command : ChunkCommand)
    (rest : List ChunkCommand) (st : GenWriteState) :
    ∃ st1 : GenWriteState,
      chunkWriteLoop B (command :: rest) st =
        (if B ≤ st1.num_generates then st1 else chunkWriteLoop B rest st1) ∧
      st1.examined = st.examined ++ [command] ∧
      st1.num_generates = st.num_generates + (generateKey command).toList.length ∧
      st1.num_generates + st1.num_edits + st1.num_removes
        = st.num_generates + st.num_edits + st.num_removes + 1 := by
  obtain ⟨g, e, r, results, writes, ex⟩ := st
  cases command with
  | generate key =>
    cases results with
    | nil =>
      exact ⟨⟨g + 1, e, r, [], writes, ex ++ [ChunkCommand.generate key]⟩,
        rfl, rfl, rfl, by show g + 1 + e + r = g + e + r + 1; omega⟩
    | cons res results =>
      exact ⟨⟨g + 1, e, r, results, writes ++ [res], ex ++ [ChunkCommand.generate key]⟩,
        rfl, rfl, rfl, by show g + 1 + e + r = g + e + r + 1; omega⟩
  | edit key chunk =>
    exact ⟨⟨g, e + 1, r, results, writes ++ [(key, chunk)], ex ++ [ChunkCommand.edit key chunk]⟩,
      rfl, rfl, by simp [generateKey], by show g + (e + 1) + r = g + e + r + 1; omega⟩
  | remove key =>
    exact ⟨⟨g, e, r + 1, results, writes, ex ++ [ChunkCommand.remove key]⟩,
      rfl, rfl, by simp [generateKey], by show g + e + (r + 1) = g + e + r + 1; omega⟩

lemma generateKey_toList_len_le (command : ChunkCommand) :
    (generateKey command).toList.length ≤ 1 := by
  cases command <;> simp [generateKey]

lemma chunkSpawnLoop_spawn_bound (B : Nat) :
    ∀ (l : List ChunkCommand) (st : GenSpawnState),
      st.spawned.length = st.num_chunks_generated →
      st.num_chunks_generated < B →
      (chunkSpawnLoop B l st).spawned.length ≤ B := by
  intro l
  induction l with
  | nil =>
    intro st hinv hlt
    show st.spawned.length ≤ B
    omega
  | cons command rest ih =>
    intro st hinv hlt
    obtain ⟨st1, heq, hex, hsp, hnum⟩ := chunkSpawnLoop_cons_ex B command rest st
    have hk := generateKey_toList_len_le command
    have hinv1 : st1.spawned.length = st1.num_chunks_generated := by
      rw [hsp, hnum, List.length_append, hinv]
    rw [heq]
    by_cases hbr : B ≤ st1.num_chunks_generated
    · rw [if_pos hbr]
      rw [hinv1, hnum]
      omega
    · rw [if_neg hbr]
      exact ih st1 hinv1 (not_le.mp hbr)

lemma chunkSpawnLoop_all (B : Nat) :
    ∀ (l : List ChunkCommand) (st : GenSpawnState),
      st.num_chunks_generated + l.length ≤ B →
      (chunkSpawnLoop B l st).spawned = st.spawned ++ l.filterMap generateKey ∧
      (chunkSpawnLoop B l st).examined = st.examined ++ l := by
  intro l
  induction l with
  | nil =>
    intro st _
    constructor <;> simp [chunkSpawnLoop]
  | cons command rest ih =>
    intro st h
    rw [List.length_cons] at h
    obtain ⟨st1, heq, hex, hsp, hnum⟩ := chunkSpawnLoop_cons_ex B command rest st
    have hk := generateKey_toList_len_le command
    rw [heq]
    by_cases hbr : B ≤ st1.num_chunks_generated
    · have hrest : rest = [] := by
        refine List.length_eq_zero.mp ?_
        rw [hnum] at hbr
        omega
      subst hrest
      rw [if_pos hbr]
      refine ⟨?_, ?_⟩
      · rw [hsp]
        cases command <;> simp [generateKey]
      · rw [hex]
    · rw [if_neg hbr]
      obtain ⟨ihs, ihe⟩ := ih st1 (by rw [hnum]; omega)
      refine ⟨?_, ?_⟩
      · rw [ihs, hsp, List.append_assoc]
        cases command <;> simp [generateKey]
      · rw [ihe, hex, List.append_assoc]
        rfl

lemma chunkWriteLoop_prefix (B : Nat) :
    ∀ (l : List ChunkCommand) (st : GenWriteState),
      ∃ n, n ≤ l.length ∧
        (chunkWriteLoop B l st).examined = st.examined ++ l.take n ∧
        (chunkWriteLoop B l st).num_generates + (chunkWriteLoop B l st).num_edits
            + (chunkWriteLoop B l st).num_removes
          = st.num_generates + st.num_edits + st.num_removes + n := by
  intro l
  induction l with
  | nil =>
    intro st
    exact ⟨0, Nat.le_refl 0, by simp [chunkWriteLoop], by simp [chunkWriteLoop]⟩
  | cons command rest ih =>
    intro st
    obtain ⟨st1, heq, hex, _, hsum⟩ := chunkWriteLoop_cons_ex B command rest st
    rw [heq]
    by_cases hbr : B ≤ st1.num_generates
    · rw [if_pos hbr]
      refine ⟨1, by simp, ?_, by omega⟩
      rw [hex]
      rfl
    · rw [if_neg hbr]
      obtain ⟨n, hn, hex2, hsum2⟩ := ih st1
      refine ⟨n + 1, by rw [List.length_cons]; omega, ?_, by omega⟩
      rw [hex2, hex, List.append_assoc, List.take_succ_cons]
      rfl

lemma chunkLoops_same_examined (B : Nat) :
    ∀ (l : List ChunkCommand) (st1 : GenSpawnState) (st2 : GenWriteState),
      st1.num_chunks_generated = st2.num_generates →
      st1.examined = st2.examined →
      (chunkSpawnLoop B l st1).examined = (chunkWriteLoop B l st2).examined := by
  intro l
  induction l with
  | nil =>
    intro st1 st2 _ hex
    exact hex
  | cons command rest ih =>
    intro st1 st2 hnum hex
    obtain ⟨sa, heqa, hexa, _, hnuma⟩ := chunkSpawnLoop_cons_ex B command rest st1
    obtain ⟨sb, heqb, hexb, hnumb, _⟩ := chunkWriteLoop_cons_ex B command rest st2
    have hnum1 : sa.num_chunks_generated = sb.num_generates := by
      rw [hnuma, hnumb, hnum]
    have hex1 : sa.examined = sb.examined := by
      rw [hexa, hexb, hex]
    rw [heqa, heqb, hnum1]
    by_cases hbr : B ≤ sb.num_generates
    · rw [if_pos hbr, if_pos hbr]
      exact hex1
    · rw [if_neg hbr, if_neg hbr]
      exact ih sa sb hnum1 hex1

lemma chunkSpawnLoop_spawned_examined (B : Nat) :
    ∀ (l : List ChunkCommand) (st : GenSpawnState),
      ∃ pre,
        (chunkSpawnLoop B l st).examined = st.examined ++ pre ∧
        (chunkSpawnLoop B l st).spawned = st.spawned ++ pre.filterMap generateKey := by
  intro l
  induction l with
  | nil =>
    intro st
    exact ⟨[], by simp [chunkSpawnLoop], by simp [chunkSpawnLoop]⟩
  | cons command rest ih =>
    intro st
    obtain ⟨st1, heq, hex, hsp, _⟩ := chunkSpawnLoop_cons_ex B command rest st
    rw [heq]
    by_cases hbr : B ≤ st1.num_chunks_generated
    · rw [if_pos hbr]
      refine ⟨[command], hex, ?_⟩
      rw [hsp]
      cases command <;> simp [generateKey]
    · rw [if_neg hbr]
      obtain ⟨pre, hex2, hsp2⟩ := ih st1
      refine ⟨command :: pre, ?_, ?_⟩
      · rw [hex2, hex, List.append_assoc]
        rfl
      · rw [hsp2, hsp, List.append_assoc]
        cases command <;> simp [generateKey]

lemma chunk_generator_system_spawned (thread_num : Nat)
    (generate_chunk : Point3 → Point3 × ChunkArray) (q : ChunkCommandQueue) :
    (chunk_generator_system thread_num generate_chunk q).spawned
      = (chunkSpawnLoop (min q.length (max_chunk_creations_per_frame thread_num))
          q.reverse ⟨0, [], []⟩).spawned := rfl

lemma chunk_generator_system_consumed (thread_num : Nat)
    (generate_chunk : Point3 → Point3 × ChunkArray) (q : ChunkCommandQueue) :
    (chunk_generator_system thread_num generate_chunk q).consumed
      = (chunkWriteLoop (min q.length (max_chunk_creations_per_frame thread_num))
          q.reverse
          ⟨0, 0, 0,
            ((chunkSpawnLoop (min q.length (max_chunk_creations_per_frame thread_num))
              q.reverse ⟨0, [], []⟩).spawned.map generate_chunk), [], []⟩).examined := rfl

lemma chunk_generator_system_queue (thread_num : Nat)
    (generate_chunk : Point3 → Point3 × ChunkArray) (q : ChunkCommandQueue) :
    (chunk_generator_system thread_num generate_chunk q).queue
      = q.take (q.length -
          ((chunkWriteLoop (min q.length (max_chunk_creations_per_frame thread_num))
            q.reverse
            ⟨0, 0, 0,
              ((chunkSpawnLoop (min q.length (max_chunk_creations_per_frame thread_num))
                q.reverse ⟨0, [], []⟩).spawned.map generate_chunk), [], []⟩).num_generates
          + (chunkWriteLoop (min q.length (max_chunk_creations_per_frame thread_num))
            q.reverse
            ⟨0, 0, 0,
              ((chunkSpawnLoop (min q.length (max_chunk_creations_per_frame thread_num))
                q.reverse ⟨0, [], []⟩).spawned.map generate_chunk), [], []⟩).num_edits
          + (chunkWriteLoop (min q.length (max_chunk_creations_per_frame thread_num))
            q.reverse
            ⟨0, 0, 0,
              ((chunkSpawnLoop (min q.length (max_chunk_creations_per_frame thread_num))
                q.reverse ⟨0, [], []⟩).spawned.map generate_chunk), [], []⟩).num_removes)) := rfl

/-- C3: with at least one worker thread, one invocation of
`chunk_generator_system` over N pending commands spawns at most
`40 × thread count` chunk-generation tasks; when `N < 40 × thread count`
every pending `Generate` command is processed in that invocation (the spawned
tasks are exactly the Generate keys of the whole queue, oldest first); and
exactly the processed (consumed) commands are removed from the queue — the
kept front of the deque followed by the consumed commands (most recent
first) reassembles the original queue, and the spawned tasks are precisely
the Generate commands among the consumed ones. -/
theorem chunk_generator_system_budget (thread_num : Nat)
    (generate_chunk : Point3 → Point3 × ChunkArray)
    (chunk_commands : ChunkCommandQueue) (hT : 1 ≤ thread_num) :
    (chunk_generator_system thread_num generate_chunk chunk_commands).spawned.length
        ≤ max_chunk_creations_per_frame thread_num ∧
    (chunk_commands.length < max_chunk_creations_per_frame thread_num →
      (chunk_generator_system thread_num generate_chunk chunk_commands).spawned
        = chunk_commands.reverse.filterMap generateKey) ∧
    (chunk_generator_system thread_num generate_chunk chunk_commands).queue
        ++ (chunk_generator_system thread_num generate_chunk chunk_commands).consumed.reverse
      = chunk_commands ∧
    (chunk_generator_system thread_num generate_chunk chunk_commands).spawned
      = (chunk_generator_system thread_num generate_chunk
          chunk_commands).consumed.filterMap generateKey := by
  refine ⟨?_, ?_, ?_, ?_⟩
  · rw [chunk_generator_system_spawned]
    cases hq : chunk_commands with
    | nil =>
      show (([] : List Point3)).length ≤ _
      exact Nat.zero_le _
    | cons c q' =>
      refine le_trans (chunkSpawnLoop_spawn_bound _ _ _ rfl ?_) (min_le_right _ _)
      show 0 < min (c :: q').length (max_chunk_creations_per_frame thread_num)
      have h1 : 0 < (c :: q').length := Nat.succ_pos _
      have h2 : 0 < max_chunk_creations_per_frame thread_num := by
        unfold max_chunk_creations_per_frame
        omega
      omega
  · intro hlt
    rw [chunk_generator_system_spawned]
    have hmin : min chunk_commands.length (max_chunk_creations_per_frame thread_num)
        = chunk_commands.length := min_eq_left hlt.le
    rw [hmin]
    obtain ⟨hs, _⟩ := chunkSpawnLoop_all chunk_commands.length chunk_commands.reverse
      ⟨0, [], []⟩
      (by show 0 + chunk_commands.reverse.length ≤ chunk_commands.length
          rw [List.length_reverse]
          omega)
    rw [hs]
    rfl
  · rw [chunk_generator_system_queue, chunk_generator_system_consumed]
    obtain ⟨n, hn, hex, hsum⟩ := chunkWriteLoop_prefix
      (min chunk_commands.length (max_chunk_creations_per_frame thread_num))
      chunk_commands.reverse
      ⟨0, 0, 0,
        ((chunkSpawnLoop (min chunk_commands.length (max_chunk_creations_per_frame thread_num))
          chunk_commands.reverse ⟨0, [], []⟩).spawned.map generate_chunk), [], []⟩
    rw [List.length_reverse] at hn
    rw [hex, hsum]
    simp only [List.nil_append, Nat.zero_add]
    rw [← List.rtake_eq_reverse_take_reverse, List.rtake]
    exact List.take_append_drop _ _
  · rw [chunk_generator_system_spawned, chunk_generator_system_consumed]
    obtain ⟨pre, hex1, hsp1⟩ := chunkSpawnLoop_spawned_examined
      (min chunk_commands.length (max_chunk_creations_per_frame thread_num))
      chunk_commands.reverse ⟨0, [], []⟩
    have haligned := chunkLoops_same_examined
      (min chunk_commands.length (max_chunk_creations_per_frame thread_num))
      chunk_commands.reverse ⟨0, [], []⟩
      ⟨0, 0, 0,
        ((chunkSpawnLoop (min chunk_commands.length (max_chunk_creations_per_frame thread_num))
          chunk_commands.reverse ⟨0, [], []⟩).spawned.map generate_chunk), [], []⟩
      rfl rfl
    rw [← haligned, hsp1, hex1]
    simp

/-- Witness for C3 with one worker thread and a one-command queue. -/
theorem chunk_generator_system_budget_witness :
    1 ≤ 1 ∧
    ((chunk_generator_system 1 (fun k => (k, []))
        [ChunkCommand.generate ⟨0, 0, 0⟩]).spawned.length
        ≤ max_chunk_creations_per_frame 1 ∧
    ([ChunkCommand.generate (⟨0, 0, 0⟩ : Point3)].length
        < max_chunk_creations_per_frame 1 →
      (chunk_generator_system 1 (fun k => (k, []))
          [ChunkCommand.generate ⟨0, 0, 0⟩]).spawned
        = [ChunkCommand.generate (⟨0, 0, 0⟩ : Point3)].reverse.filterMap generateKey) ∧
    (chunk_generator_system 1 (fun k => (k, []))
        [ChunkCommand.generate ⟨0, 0, 0⟩]).queue
        ++ (chunk_generator_system 1 (fun k => (k, []))
          [ChunkCommand.generate ⟨0, 0, 0⟩]).consumed.reverse
      = [ChunkCommand.generate (⟨0, 0, 0⟩ : Point3)] ∧
    (chunk_generator_system 1 (fun k => (k, []))
        [ChunkCommand.generate ⟨0, 0, 0⟩]).spawned
      = (chunk_generator_system 1 (fun k => (k, []))
          [ChunkCommand.generate ⟨0, 0, 0⟩]).consumed.filterMap generateKey) :=
  ⟨le_refl 1,
    chunk_generator_system_budget 1 (fun k => (k, []))
      [ChunkCommand.generate ⟨0, 0, 0⟩] (le_refl 1)⟩

end Minkraft
